import Mathlib

/-!
# Dashboard.jsx — the post generation dashboard

A shallow embedding of `src/vite-project/src/pages/Dashboard.jsx`.

* React state is a record (`DashState`); a handler is a pure function from the
  state captured by its closure to the ordered list of effects it performs
  (`Effect`: state setter calls, `axios.post` calls, object URL calls).  The
  state after the handler is the fold of the setter calls over the old state.
* Everything a generation gets from outside the component (the responses of
  the two endpoints, the file reader, and the two runtime conversions
  `JSON.stringify` and array-to-string) is a field of `World`; the file picked
  and the object URL allocated for it come with the file selection event.
* JavaScript exceptions are explicit: a function that can throw returns
  `Except JsError _`.
* Response bodies are `JsVal`, with the property reads, optional chaining and
  truthiness of the language.
-/

namespace Dashboard

/-! ## JavaScript values -/

/-- A JavaScript value as found in a parsed response body.  Numbers occur in
the code only through truthiness and string conversion; integers stand for
them. -/
inductive JsVal where
  | undefined
  | null
  | bool (b : Bool)
  | num (n : Int)
  | str (s : String)
  | arr (items : List JsVal)
  | obj (fields : List (String × JsVal))

namespace JsVal

/-- The test behind `?.`: `null` and `undefined` short-circuit. -/
def isNullish : JsVal → Bool
  | undefined => true
  | null => true
  | _ => false

/-- ToBoolean, as used by `if (v)`, `v || w`, `v && w` and `!v`. -/
def truthy : JsVal → Bool
  | undefined => false
  | null => false
  | bool b => b
  | num n => n != 0
  | str s => s != ""
  | arr _ => true
  | obj _ => true

/-- The property read `v.k` on a value that is not nullish, for the keys read
by the code (`choices`, `message`, `content`, `error`, `code`, `data`, `url`,
`result`, `id`): only an object can carry them. -/
def getProp (v : JsVal) (k : String) : JsVal :=
  match v with
  | obj fields => (fields.lookup k).getD undefined
  | _ => undefined

/-- The element read `v[0]` on a value that is not nullish: first item of an
array, first character of a string, property `"0"` of an object. -/
def index0 : JsVal → JsVal
  | arr items => items.headD undefined
  | str s =>
    match s.data with
    | [] => undefined
    | c :: _ => str (String.singleton c)
  | obj fields => (fields.lookup "0").getD undefined
  | _ => undefined

/-- Optional chaining `v?.k`. -/
def optProp (v : JsVal) (k : String) : JsVal :=
  if v.isNullish then undefined else v.getProp k

/-- Optional chaining `v?.[0]`. -/
def optIndex0 (v : JsVal) : JsVal :=
  if v.isNullish then undefined else v.index0

/-- The operator `a || b`. -/
def or (a b : JsVal) : JsVal :=
  if a.truthy then a else b

/-- The test `v === "lit"`. -/
def isStr (v : JsVal) (lit : String) : Bool :=
  match v with
  | str s => s == lit
  | _ => false

end JsVal

/-- A thrown JavaScript value, as far as the `catch` of `handleGeneratePost`
tells them apart. -/
inductive JsError where
  /-- An `AxiosError`: `err.message`, `err.config.url`, and `err.response`
  (status and body) when the server answered. -/
  | axios (message : String) (url : String) (response : Option (Nat × JsVal))
  /-- Any other `Error` instance (`new Error(..)`, a `TypeError`). -/
  | error (message : String)
  /-- A thrown value that is not an `Error` (the `FileReader` error event). -/
  | other

/-- The `TypeError` of a property read on `null` or `undefined`; the text is
the engine's. -/
def cannotRead (v : JsVal) (prop : String) : JsError :=
  match v with
  | .null => .error ("Cannot read properties of null (reading '" ++ prop ++ "')")
  | _ => .error ("Cannot read properties of undefined (reading '" ++ prop ++ "')")

/-- The `TypeError` of a call of something that is not a function; the text is
the engine's, which names the callee as written in the source. -/
def notAFunction (callee : String) : JsError :=
  .error (callee ++ " is not a function")

/-! ## Strings -/

/-- WhiteSpace and LineTerminator code points, the characters removed by
`String.prototype.trim`. -/
def isJsWhitespace (c : Char) : Bool :=
  let n := c.toNat
  n == 0x09 || n == 0x0A || n == 0x0B || n == 0x0C || n == 0x0D || n == 0x20 ||
  n == 0xA0 || n == 0x1680 || (0x2000 ≤ n && n ≤ 0x200A) || n == 0x2028 ||
  n == 0x2029 || n == 0x202F || n == 0x205F || n == 0x3000 || n == 0xFEFF

/-- The method `s.trim()`. -/
def jsTrim (s : String) : String :=
  ⟨((s.data.dropWhile isJsWhitespace).reverse.dropWhile isJsWhitespace).reverse⟩

/-- Truthiness of a string: non-empty. -/
def strTruthy (s : String) : Bool := s != ""

/-- The property `s.length`: the number of UTF-16 code units. -/
def jsLength (s : String) : Nat :=
  (s.data.map fun c => if c.toNat < 0x10000 then 1 else 2).sum

/-- Whether `pat` occurs in the character list. -/
def hasSubstr : List Char → List Char → Bool
  | [], pat => pat.isEmpty
  | c :: cs, pat => pat.isPrefixOf (c :: cs) || hasSubstr cs pat

/-- The method `s.includes(pat)` on strings. -/
def strIncludes (s pat : String) : Bool := hasSubstr s.data pat.data

/-- The method `s.startsWith(pat)`. -/
def strStartsWith (s pat : String) : Bool := pat.data.isPrefixOf s.data

/-- The expression `s.split(",")[1]`: the text between the first and the second
comma, `none` (`undefined`) when there is no comma. -/
def splitCommaAt1 (s : String) : Option String :=
  match s.data.dropWhile (fun c => c != ',') with
  | [] => none
  | _ :: rest => some ⟨rest.takeWhile (fun c => c != ',')⟩

/-- Template interpolation of a value that may be `undefined`. -/
def optStr : Option String → String
  | some s => s
  | none => "undefined"

/-! ## Configuration and tables -/

/-- The four deployment values read from `import.meta.env` (lines 2-5); `none`
is `undefined`. -/
structure Config where
  DALLE_ENDPOINT : Option String
  AZURE_GPT4_API_KEY : Option String
  GPT4_ENDPOINT : Option String
  AZURE_DALLE_API_KEY : Option String

/-- Truthiness of a configuration value: defined and non-empty. -/
def envTruthy : Option String → Bool
  | some s => s != ""
  | none => false

/-- The condition `!GPT4_ENDPOINT || !AZURE_GPT4_API_KEY`. -/
def Config.gpt4Missing (cfg : Config) : Bool :=
  !envTruthy cfg.GPT4_ENDPOINT || !envTruthy cfg.AZURE_GPT4_API_KEY

/-- The condition `!DALLE_ENDPOINT || !AZURE_DALLE_API_KEY`. -/
def Config.dalleMissing (cfg : Config) : Bool :=
  !envTruthy cfg.DALLE_ENDPOINT || !envTruthy cfg.AZURE_DALLE_API_KEY

/-- The object literal `defaultCharLimits` (lines 21-26). -/
def defaultCharLimits : List (String × Nat) :=
  [("Twitter", 280), ("Instagram", 2200), ("LinkedIn", 1300), ("Facebook", 63206)]

/-- The limit configured for a platform: the entry of `defaultCharLimits` under
that key, `none` when the literal has no such key. -/
def charLimitOf (platform : String) : Option Nat :=
  defaultCharLimits.lookup platform

/-- The names of the members that every object literal inherits from
`Object.prototype`. -/
def objectPrototypeMembers : List String :=
  ["constructor", "__defineGetter__", "__defineSetter__", "hasOwnProperty",
   "__lookupGetter__", "__lookupSetter__", "isPrototypeOf", "propertyIsEnumerable",
   "toString", "valueOf", "__proto__", "toLocaleString"]

/-- The value of a property read `table[platform]` on an object literal keyed by
platform: the entry of the literal, a member inherited from `Object.prototype`
(a function, or the prototype itself for `__proto__`: truthy, and not a
number), or `undefined`. -/
inductive TableRead (α : Type) where
  | own (v : α)
  | inherited
  | undefined

/-- The property read `defaultCharLimits[platform]`. -/
def readCharLimit (platform : String) : TableRead Nat :=
  match charLimitOf platform with
  | some L => .own L
  | none => if objectPrototypeMembers.contains platform then .inherited else .undefined

/-- The string conversion of a member inherited from `Object.prototype`; the
text is the engine's. -/
def inheritedMemberText (name : String) : String :=
  if name = "__proto__" then "[object Object]"
  else if name = "constructor" then "function Object() \x7b [native code] \x7d"
  else "function " ++ name ++ "() \x7b [native code] \x7d"

/-- The keys of the object literal `PLATFORM_STYLES` (lines 44-49). -/
def PLATFORM_STYLES : List String :=
  ["Twitter", "Instagram", "LinkedIn", "Facebook"]

/-- The constant `max_tokens` of `generateCaptionWithGPT4` (line 158):
`defaultCharLimits[platform] ? Math.min(500, defaultCharLimits[platform] + 50) : 500`;
`none` is `NaN`.  On an inherited member the test is truthy, `+ 50` is a string
concatenation, and `Math.min` of 500 and that string is `NaN`. -/
def max_tokens (platform : String) : Option Nat :=
  match readCharLimit platform with
  | .own L => if L != 0 then some (min 500 (L + 50)) else some 500
  | .inherited => none
  | .undefined => some 500

/-! ## Preview footer -/

/-- What `PlatformPostPreview` computes for its footer (lines 388-390 and
434-437). -/
structure PreviewFooter where
  charLimit : TableRead Nat
  charCount : Nat
  /-- Truthiness of `isOverLimit`: the count turns red and bold and
  `(Over Limit!)` is rendered. -/
  isOverLimit : Bool
  /-- The text of the counter. -/
  charsText : String

/-- The component `PlatformPostPreview` (lines 386-446), as far as the footer
goes.  `content` is the prop, `none` when `undefined`.  Rendering throws when
`PLATFORM_STYLES[platform]` is `undefined` (line 393 reads its `textColor`),
and for `__proto__`, where the icon `generateIcons[platform]` of line 416 is the
object `Object.prototype`, which React refuses as a child.  On an inherited
member `charLimit` is truthy and `charCount > charLimit` compares with `NaN`. -/
def PlatformPostPreview (platform : String) (content : Option String) :
    Except JsError PreviewFooter :=
  let charLimit := readCharLimit platform
  let charCount := match content with
    | some c => jsLength c
    | none => 0
  let isOverLimit := match charLimit with
    | .own L => L != 0 && decide (charCount > L)
    | .inherited => false
    | .undefined => false
  let footer : PreviewFooter :=
    { charLimit := charLimit
      charCount := charCount
      isOverLimit := isOverLimit
      charsText := match charLimit with
        | .own L =>
          if L != 0 then "Chars: " ++ toString charCount ++ "/" ++ toString L
          else "Chars: " ++ toString charCount
        | .inherited => "Chars: " ++ toString charCount ++ "/" ++ inheritedMemberText platform
        | .undefined => "Chars: " ++ toString charCount }
  if PLATFORM_STYLES.contains platform then .ok footer
  else if platform = "__proto__" then
    .error (.error "Objects are not valid as a React child (found: object with keys \x7b\x7d). If you meant to render a collection of children, use an array instead.")
  else if objectPrototypeMembers.contains platform then .ok footer
  else .error (cannotRead .undefined "textColor")

/-! ## Dashboard state and effects -/

/-- A `File` picked in the file input, as far as the handlers read it. -/
structure File where
  name : String
  type : String
  size : Nat
deriving DecidableEq

/-- The object stored by `setGeneratedPost`.  `content` is `none` for the empty
object `{}`; `imageUrl` is `undefined` when the property is absent. -/
structure Post where
  content : Option String
  imageUrl : JsVal

/-- The `useState` cells of `Dashboard` (lines 97-105). -/
structure DashState where
  userPrompt : String
  postType : String
  platform : String
  wantImage : Bool
  uploadedImage : Option File
  imagePreviewUrl : Option String
  generatedPost : Option Post
  loading : Bool
  error : Option String

/-- The initial values of the `useState` cells. -/
def DashState.initial : DashState :=
  { userPrompt := ""
    postType := "Personal"
    platform := "LinkedIn"
    wantImage := false
    uploadedImage := none
    imagePreviewUrl := none
    generatedPost := none
    loading := false
    error := none }

/-- The content of a chat message: plain text, or the two-part vision content
(text and an `image_url` with detail `"high"`). -/
inductive MsgContent where
  | text (s : String)
  | vision (text : String) (imageUrl : String)

/-- One entry of the `messages` array. -/
structure ChatMessage where
  role : String
  content : MsgContent

/-- A call of `axios.post`. -/
inductive HttpRequest where
  /-- The call of `generateCaptionWithGPT4` (lines 163-170): temperature 0.7,
  timeout 90000. -/
  | caption (url : String) (apiKey : String) (messages : List ChatMessage)
      (max_tokens : Option Nat)
  /-- The call of `generateImageWithDalle` (lines 197-204): `n: 1`,
  `size: "1024x1024"`, timeout 120000. -/
  | image (url : String) (apiKey : String) (prompt : String)

/-- What a handler does, in program order. -/
inductive Effect where
  | setError (e : Option String)
  | setUploadedImage (f : Option File)
  | setImagePreviewUrl (u : Option String)
  | setWantImage (b : Bool)
  | setGeneratedPost (p : Option Post)
  | setLoading (b : Bool)
  | setUserPrompt (v : String)
  | setPostType (v : String)
  | setPlatform (v : String)
  | createObjectURL (u : String)
  | revokeObjectURL (u : String)
  | resetFileInput
  | axiosPost (req : HttpRequest)

/-- The state after one effect: a setter replaces its cell, the others leave
the state alone. -/
def Effect.apply (s : DashState) : Effect → DashState
  | .setError e => { s with error := e }
  | .setUploadedImage f => { s with uploadedImage := f }
  | .setImagePreviewUrl u => { s with imagePreviewUrl := u }
  | .setWantImage b => { s with wantImage := b }
  | .setGeneratedPost p => { s with generatedPost := p }
  | .setLoading b => { s with loading := b }
  | .setUserPrompt v => { s with userPrompt := v }
  | .setPostType v => { s with postType := v }
  | .setPlatform v => { s with platform := v }
  | .createObjectURL _ => s
  | .revokeObjectURL _ => s
  | .resetFileInput => s
  | .axiosPost _ => s

/-- The state after a handler: its setter calls applied in order. -/
def runEffects (s : DashState) (effs : List Effect) : DashState :=
  effs.foldl Effect.apply s

/-- The `axios.post` calls among the effects. -/
def requestsOf (effs : List Effect) : List HttpRequest :=
  effs.filterMap fun
    | .axiosPost r => some r
    | _ => none

/-- Whether a request goes to the caption endpoint. -/
def HttpRequest.isCaption : HttpRequest → Bool
  | .caption .. => true
  | .image .. => false

/-- Whether a request goes to the image endpoint. -/
def HttpRequest.isImage : HttpRequest → Bool
  | .caption .. => false
  | .image .. => true

/-- The statement `if (imagePreviewUrl) URL.revokeObjectURL(imagePreviewUrl);`. -/
def revokePreview (s : DashState) : List Effect :=
  match s.imagePreviewUrl with
  | some u => if u != "" then [.revokeObjectURL u] else []
  | none => []

/-- The handler `handleImageChange` (lines 120-143).  `file` is
`event.target.files[0]` (`none` when the selection is empty) and `previewUrl`
is what `URL.createObjectURL(file)` returns. -/
def handleImageChange (s : DashState) (file : Option File) (previewUrl : String) :
    List Effect :=
  [.setError none] ++
  match file with
  | some f =>
    if strStartsWith f.type "image/" then
      if f.size > 4 * 1024 * 1024 then
        [.setError (some "Image file is too large (Max 4MB for Vision API). Please choose a smaller image."),
         .setUploadedImage none] ++ revokePreview s ++
        [.setImagePreviewUrl none, .resetFileInput]
      else
        [.setUploadedImage (some f), .createObjectURL previewUrl] ++ revokePreview s ++
        [.setImagePreviewUrl (some previewUrl), .setWantImage false]
    else
      [.setUploadedImage none] ++ revokePreview s ++
      [.setImagePreviewUrl none,
       .setError (some "Please select a valid image file (JPG, PNG, GIF, WEBP).")]
  | none =>
    [.setUploadedImage none] ++ revokePreview s ++ [.setImagePreviewUrl none]

/-- The handler `clearUploadedImage` (lines 145-151). -/
def clearUploadedImage (s : DashState) : List Effect :=
  [.setUploadedImage none] ++ revokePreview s ++
  [.setImagePreviewUrl none, .setError none, .resetFileInput]

/-- The `onClick` of the DALL-E label (line 489):
`!loading && !uploadedImage && setWantImage(!wantImage)`. -/
def clickWantImage (s : DashState) : List Effect :=
  if !s.loading && s.uploadedImage.isNone then [.setWantImage (!s.wantImage)] else []

/-! ## The world outside the component -/

/-- How one `axios.post` settles: resolved with a 2xx response (body and
headers), or rejected with an `AxiosError` (`message`, and `response` with
status and body when the server answered; no response on a network failure or
a timeout). -/
inductive AxiosOutcome where
  | resolved (data : JsVal) (headers : List (String × String))
  | rejected (message : String) (response : Option (Nat × JsVal))

/-- Everything `handleGeneratePost` gets from outside. -/
structure World where
  /-- The function `JSON.stringify` on a value other than `undefined`. -/
  jsonStringify : JsVal → String
  /-- The string conversion of an array (`Array.prototype.toString`). -/
  arrayToString : List JsVal → String
  /-- How `fileToBase64(uploadedImage)` settles: resolved with the data URL, or
  `none` when rejected with the error event of the reader. -/
  fileToBase64 : Option String
  /-- How the POST to the caption endpoint settles. -/
  captionPost : AxiosOutcome
  /-- How the POST to the image endpoint settles. -/
  imagePost : AxiosOutcome
  /-- When both POSTs fail: whether the image one fails first. -/
  imageSettlesFirst : Bool

/-- Interpolation of a value into a template literal.  A number prints in
decimal, as JavaScript prints the integers of magnitude below 10^21. -/
def JsVal.toTemplate (w : World) : JsVal → String
  | .undefined => "undefined"
  | .null => "null"
  | .bool true => "true"
  | .bool false => "false"
  | .num n => toString n
  | .str s => s
  | .arr items => w.arrayToString items
  | .obj _ => "[object Object]"

/-- The call `v?.includes(pat)` reduced to its truthiness: `undefined` on a
nullish value, substring test on a string, membership on an array, and a
`TypeError` on anything else (there `includes` is not a function).  `callee` is
the callee as written in the source. -/
def jsIncludes (callee : String) (v : JsVal) (pat : String) : Except JsError Bool :=
  match v with
  | .undefined => .ok false
  | .null => .ok false
  | .str s => .ok (strIncludes s pat)
  | .arr items => .ok (items.any fun x => x.isStr pat)
  | _ => .error (notAFunction callee)

/-! ## Caption service client -/

/-- Lines 174-181 of `generateCaptionWithGPT4`: the caption of a 2xx body. -/
def captionOfBody (w : World) (data : JsVal) : Except JsError String :=
  if data.isNullish then
    .error (cannotRead data "choices")
  else
    let invalid : Except JsError String :=
      let errorDetail :=
        (((data.optProp "choices").optIndex0.optProp "error").or (data.optProp "error")).or
          (.str "No content in response.")
      .error (.error ("Invalid response structure or empty content from GPT-4 API. Detail: " ++
        w.jsonStringify errorDetail))
    match (((data.getProp "choices").optIndex0).optProp "message").optProp "content" with
    | .undefined => invalid
    | .null => invalid
    | .str s => if strTruthy (jsTrim s) then .ok (jsTrim s) else invalid
    | _ => .error (notAFunction "response.data.choices?.[0]?.message?.content?.trim")

/-- The function `generateCaptionWithGPT4` (lines 154-189): the requests it
issues and how its promise settles. -/
def generateCaptionWithGPT4 (cfg : Config) (w : World) (messages : List ChatMessage)
    (platform : String) : List HttpRequest × Except JsError String :=
  if cfg.gpt4Missing then
    ([], .error (.error "GPT-4 API endpoint or key is not configured."))
  else
    let url := cfg.GPT4_ENDPOINT.getD ""
    ([.caption url (cfg.AZURE_GPT4_API_KEY.getD "") messages (max_tokens platform)],
      match w.captionPost with
      | .resolved data _ => captionOfBody w data
      | .rejected message response => .error (.axios message url response))

/-! ## Image service client -/

/-- Lines 208-217 of `generateImageWithDalle`: the URL of a 2xx response. -/
def imageUrlOfResponse (data : JsVal) (headers : List (String × String)) :
    Except JsError JsVal :=
  if data.isNullish then
    .error (cannotRead data "data")
  else
    let imageUrl :=
      (((data.getProp "data").optIndex0).optProp "url").or
        ((((data.getProp "result").optProp "data").optIndex0).optProp "url")
    if imageUrl.truthy then .ok imageUrl
    else if (data.getProp "id").truthy && envTruthy (headers.lookup "operation-location") then
      .error (.error "DALL-E generation started (async), but polling for result is not implemented.")
    else
      .error (.error "Invalid response structure from DALL-E API. Could not find image URL.")

/-- The function `generateImageWithDalle` (lines 191-225). -/
def generateImageWithDalle (cfg : Config) (w : World) (imagePrompt : String) :
    List HttpRequest × Except JsError JsVal :=
  if cfg.dalleMissing then
    ([], .error (.error "DALL-E API endpoint or key is not configured."))
  else
    let url := cfg.DALLE_ENDPOINT.getD ""
    ([.image url (cfg.AZURE_DALLE_API_KEY.getD "") imagePrompt],
      match w.imagePost with
      | .resolved data headers => imageUrlOfResponse data headers
      | .rejected message response => .error (.axios message url response))

/-- The first operand of line 208: `response.data.data?.[0]?.url`, on a body
that is not nullish. -/
def directUrl (data : JsVal) : JsVal :=
  ((data.getProp "data").optIndex0).optProp "url"

/-- The second operand of line 208: `response.data.result?.data?.[0]?.url`, on a
body that is not nullish. -/
def wrappedUrl (data : JsVal) : JsVal :=
  (((data.getProp "result").optProp "data").optIndex0).optProp "url"

/-- The message thrown at line 213. -/
def asyncNotImplemented : String :=
  "DALL-E generation started (async), but polling for result is not implemented."

/-- The message thrown at line 216. -/
def invalidImageResponse : String :=
  "Invalid response structure from DALL-E API. Could not find image URL."

/-- The condition of line 211: `response.data.id && response.headers['operation-location']`. -/
def isAsyncJob (data : JsVal) (headers : List (String × String)) : Bool :=
  (data.getProp "id").truthy && envTruthy (headers.lookup "operation-location")

/-- The content read at line 174 before `trim()`:
`response.data.choices?.[0]?.message?.content`, on a body that is not nullish. -/
def contentOf (data : JsVal) : JsVal :=
  (((data.getProp "choices").optIndex0).optProp "message").optProp "content"

/-- The fixed start of the message thrown at line 180. -/
def invalidCaptionResponse : String :=
  "Invalid response structure or empty content from GPT-4 API. Detail: "

/-! ## Generation orchestrator -/

/-- The constant `apiErrorMsg` (line 291):
`data?.error?.message || (typeof data === 'string' ? data : JSON.stringify(data))`. -/
def apiErrorMsgOf (w : World) (data : JsVal) : JsVal :=
  ((data.optProp "error").optProp "message").or
    (match data with
      | .str s => .str s
      | .undefined => .undefined
      | v => .str (w.jsonStringify v))

/-- The condition of line 293:
`data?.error?.code?.includes("content_filter") || apiErrorMsg?.includes("content management policy")`. -/
def contentPolicyHit (w : World) (data : JsVal) : Except JsError Bool :=
  match jsIncludes "data?.error?.code?.includes" ((data.optProp "error").optProp "code")
      "content_filter" with
  | .error e => .error e
  | .ok true => .ok true
  | .ok false => jsIncludes "apiErrorMsg?.includes" (apiErrorMsgOf w data) "content management policy"

/-- The condition of line 294:
`data?.error?.code === "InvalidImageSize" || data?.error?.code === "InvalidImageUrl" || apiErrorMsg?.includes("InvalidImage")`. -/
def imageIssueHit (w : World) (data : JsVal) : Except JsError Bool :=
  let code := (data.optProp "error").optProp "code"
  if code.isStr "InvalidImageSize" || code.isStr "InvalidImageUrl" then .ok true
  else jsIncludes "apiErrorMsg?.includes" (apiErrorMsgOf w data) "InvalidImage"

/-- The message of line 295. -/
def authGuidance : String := "API Error (401): Authentication failed. Check API Key."

/-- The message of line 296. -/
def endpointGuidance (url : String) : String :=
  "API Error (404): Endpoint not found (" ++ url ++ "). Check Endpoint URL."

/-- The message of line 297. -/
def quotaGuidance : String :=
  "API Error (429): Rate limit/quota exceeded. Check Azure resource limits/usage."

/-- The message of line 298. -/
def networkGuidance (url message : String) : String :=
  "Network error: Could not reach API (" ++ url ++ "). Check connection/URL. (" ++ message ++ ")"

/-- The body of the `catch` up to the message (lines 287-299): the text handed
to `setError`, or the exception thrown by the body itself. -/
def describeError (w : World) (err : JsError) : Except JsError String :=
  match err with
  | .axios message url response =>
    let status : Option Nat := response.map Prod.fst
    let data : JsVal := match response with
      | some r => r.2
      | none => .undefined
    let apiErrorMsg := apiErrorMsgOf w data
    let statusText := match status with
      | some n => if n != 0 then toString n else "Network Error"
      | none => "Network Error"
    let errorMessage := "API Error (" ++ statusText ++ "): " ++
      (if apiErrorMsg.truthy then apiErrorMsg.toTemplate w else message)
    match contentPolicyHit w data with
    | .error e => .error e
    | .ok true => .ok (errorMessage ++ " - Content safety policy violation.")
    | .ok false =>
      match imageIssueHit w data with
      | .error e => .error e
      | .ok true => .ok (errorMessage ++ " - Image processing issue (check format/size).")
      | .ok false =>
        if status = some 401 then .ok authGuidance
        else if status = some 404 then .ok (endpointGuidance url)
        else if status = some 429 then .ok quotaGuidance
        else if response.isNone then .ok (networkGuidance url message)
        else .ok errorMessage
  | .error message => .ok ("Error: " ++ message)
  | .other => .ok "An unexpected error occurred during generation."

/-- The promise `Promise.all([caption, image])` of line 271.  Both calls have
been started.  It rejects with the rejection that comes first: a call that
issued no request has rejected before the other one even started. -/
def promiseAll (w : World) (caption : List HttpRequest × Except JsError String)
    (image : List HttpRequest × Except JsError JsVal) : Except JsError (String × JsVal) :=
  match caption.2, image.2 with
  | .ok c, .ok u => .ok (c, u)
  | .error e, .ok _ => .error e
  | .ok _, .error e => .error e
  | .error e₁, .error e₂ =>
    if caption.1.isEmpty then .error e₁
    else if image.1.isEmpty then .error e₂
    else if w.imageSettlesFirst then .error e₂
    else .error e₁

/-- The template `platformInfo` (line 239). -/
def platformInfo (platform : String) : String :=
  platform ++ " (~" ++
    (match readCharLimit platform with
      | .own L => toString L
      | .inherited => inheritedMemberText platform
      | .undefined => "undefined") ++ " chars)"

/-- The template `baseSystemMessage` (line 241). -/
def baseSystemMessage (platform : String) : String :=
  "You are an expert social media assistant for " ++ platform ++
  ". Write compelling, platform-specific content. Focus on engagement, clarity, and brand voice. Adhere closely to length constraints if provided (" ++
  platformInfo platform ++ "). Use relevant emojis appropriately."

/-- The string `imageGenPrompt` (lines 264-266). -/
def imageGenPrompt (userPrompt postType platform : String) : String :=
  let p₀ := userPrompt ++ ", " ++ postType ++ " style, visually appealing for " ++ platform
  let p₁ := if platform = "Instagram" then p₀ ++ ", vibrant colors, high detail" else p₀
  if platform = "LinkedIn" then p₁ ++ ", professional setting, clean aesthetic" else p₁

/-- The `try` block of `handleGeneratePost` (lines 238-283): the requests it
issues and the `result` it ends with, or the exception it throws. -/
def generateResult (cfg : Config) (w : World) (s : DashState) :
    List HttpRequest × Except JsError Post :=
  let system : ChatMessage := ⟨"system", .text (baseSystemMessage s.platform)⟩
  match s.uploadedImage with
  | some file =>
    match w.fileToBase64 with
    | none => ([], .error .other)
    | some base64Image =>
      let base64ImageData := optStr (splitCommaAt1 base64Image)
      let visionPromptText :=
        "Analyze this image and generate an engaging " ++ s.postType ++ " caption for " ++
          platformInfo s.platform ++ "." ++
        (if strTruthy (jsTrim s.userPrompt) then
          " Use this context/instruction: \"" ++ s.userPrompt ++ "\"." else "") ++
        " Make it concise and impactful."
      let user : ChatMessage :=
        ⟨"user", .vision visionPromptText ("data:" ++ file.type ++ ";base64," ++ base64ImageData)⟩
      let call := generateCaptionWithGPT4 cfg w [system, user] s.platform
      (call.1, call.2.map fun caption =>
        { content := some caption
          imageUrl := match s.imagePreviewUrl with
            | some u => .str u
            | none => .null })
  | none =>
    if strTruthy (jsTrim s.userPrompt) then
      let basePrompt := "User idea: \"" ++ s.userPrompt ++ "\""
      if s.wantImage then
        let captionUserMessage :=
          "Generate a " ++ s.postType ++ " post caption for " ++ platformInfo s.platform ++ ". " ++
          basePrompt ++
          ". The post will include an AI-generated image based on this idea. Make the caption complement the visual concept. Be engaging."
        let caption := generateCaptionWithGPT4 cfg w [system, ⟨"user", .text captionUserMessage⟩] s.platform
        let image := generateImageWithDalle cfg w (imageGenPrompt s.userPrompt s.postType s.platform)
        (caption.1 ++ image.1, (promiseAll w caption image).map fun r =>
          { content := some r.1, imageUrl := r.2 })
      else
        let captionUserMessage :=
          "Generate a " ++ s.postType ++ " post caption for " ++ platformInfo s.platform ++ ". " ++
          basePrompt ++ ". Make it engaging and suitable for the platform."
        let call := generateCaptionWithGPT4 cfg w [system, ⟨"user", .text captionUserMessage⟩] s.platform
        (call.1, call.2.map fun caption => { content := some caption, imageUrl := .undefined })
    else
      ([], .ok { content := none, imageUrl := .undefined })

/-- The message of line 229. -/
def promptOrImageMessage : String := "Please enter a prompt OR upload an image."

/-- The handler `handleGeneratePost` (lines 228-302): its effects in program
order.  When the `catch` body itself throws, `setError` is not reached and
only the `finally` runs. -/
def handleGeneratePost (cfg : Config) (w : World) (s : DashState) : List Effect :=
  if !strTruthy (jsTrim s.userPrompt) && s.uploadedImage.isNone then
    [.setError (some promptOrImageMessage)]
  else if s.uploadedImage.isSome && cfg.gpt4Missing then
    [.setError (some "Error: Azure GPT-4 Vision API endpoint or key missing.")]
  else if s.uploadedImage.isNone && s.wantImage && cfg.dalleMissing then
    [.setError (some "Error: Azure DALL-E API endpoint or key missing.")]
  else if s.uploadedImage.isNone && !s.wantImage && cfg.gpt4Missing then
    [.setError (some "Error: Azure GPT-4 API endpoint or key missing.")]
  else
    let run := generateResult cfg w s
    [.setLoading true, .setError none, .setGeneratedPost none] ++
    run.1.map Effect.axiosPost ++
    (match run.2 with
      | .ok result => [.setGeneratedPost (some result)]
      | .error err =>
        match describeError w err with
        | .ok errorMessage => [.setError (some errorMessage), .setGeneratedPost none]
        | .error _ => []) ++
    [.setLoading false]

/-! ## User interface events -/

/-- The events of the controls panel (lines 463-497). -/
inductive UiEvent where
  | imageChange (file : Option File) (previewUrl : String)
  | clearImage
  | wantImageClick
  | editPrompt (value : String)
  | selectPostType (value : String)
  | selectPlatform (value : String)
  | generate (w : World)

/-- The effects of the handler bound to an event. -/
def UiEvent.effects (cfg : Config) (s : DashState) : UiEvent → List Effect
  | .imageChange file previewUrl => handleImageChange s file previewUrl
  | .clearImage => clearUploadedImage s
  | .wantImageClick => clickWantImage s
  | .editPrompt value => [.setUserPrompt value]
  | .selectPostType value => [.setPostType value]
  | .selectPlatform value => [.setPlatform value]
  | .generate w => handleGeneratePost cfg w s

/-- The state after an event.  A handler runs to completion before the next
event: while a generation is pending every control is disabled or guarded by
`loading`, and `handleGeneratePost` writes only `loading`, `error` and
`generatedPost`. -/
def step (cfg : Config) (s : DashState) (ev : UiEvent) : DashState :=
  runEffects s (ev.effects cfg s)

/-- The state after a sequence of events, from the initial state. -/
def reach (cfg : Config) (evs : List UiEvent) : DashState :=
  evs.foldl (step cfg) DashState.initial

/-! ## Preview URL lifecycle -/

/-- The cleanup returned by the effect of lines 112-117, closed over the preview
URL of its render: `if (imagePreviewUrl) URL.revokeObjectURL(imagePreviewUrl)`. -/
def previewCleanup (imagePreviewUrl : Option String) : List Effect :=
  match imagePreviewUrl with
  | some u => if u != "" then [.revokeObjectURL u] else []
  | none => []

/-- What the effect of lines 112-117 does on the render after a handler: its
dependency list is `[imagePreviewUrl]`, so when that cell has changed the
cleanup of the previous render runs, and otherwise nothing does. -/
def renderCleanup (before after : DashState) : List Effect :=
  if before.imagePreviewUrl = after.imagePreviewUrl then []
  else previewCleanup before.imagePreviewUrl

/-- Everything done along a sequence of events from state `s`: the effects of
each handler followed by the effect cleanup of the render it causes. -/
def traceFrom (cfg : Config) (s : DashState) : List UiEvent → List Effect
  | [] => []
  | ev :: evs =>
    ev.effects cfg s ++ renderCleanup s (step cfg s ev) ++ traceFrom cfg (step cfg s ev) evs

/-- A whole session: the events from the initial state, then the unmount, which
runs the cleanup of the last render. -/
def sessionTrace (cfg : Config) (evs : List UiEvent) : List Effect :=
  traceFrom cfg DashState.initial evs ++ previewCleanup (reach cfg evs).imagePreviewUrl

/-- How many times `URL.revokeObjectURL(u)` is called among the effects. -/
def revocationsOf (u : String) (effs : List Effect) : Nat :=
  effs.countP fun
    | .revokeObjectURL v => v == u
    | _ => false

/-- How many times `URL.createObjectURL` returns `u` among the effects. -/
def creationsOf (u : String) (effs : List Effect) : Nat :=
  effs.countP fun
    | .createObjectURL v => v == u
    | _ => false

/-! ## Copy to clipboard -/

/-- The state of `useCopyToClipboard` (lines 64-92): the `isCopied` cell and the
number of timers scheduled by `setTimeout` that have not fired yet. -/
structure CopyState where
  isCopied : Bool
  pendingTimers : Nat

/-- The initial state of the hook: `useState(false)`, no timer. -/
def useCopyToClipboard : CopyState :=
  { isCopied := false, pendingTimers := 0 }

/-- How one call of `copyToClipboard` goes: with `navigator.clipboard`, the
promise of `writeText` resolves or rejects; without it, the fallback `try`
block runs through, `document.execCommand("copy")` having returned whether the
text was copied, or throws. -/
inductive CopyOutcome where
  | writeResolved
  | writeRejected
  | fallbackReturned (copied : Bool)
  | fallbackThrew

/-- Whether the clipboard write failed. -/
def CopyOutcome.failed : CopyOutcome → Bool
  | .writeResolved => false
  | .writeRejected => true
  | .fallbackReturned copied => !copied
  | .fallbackThrew => true

/-- What the hook does to its state. -/
inductive CopyEffect where
  | setIsCopied (b : Bool)
  /-- The call `setTimeout(() => setIsCopied(false), delay)`. -/
  | setTimeout (delay : Nat)

/-- The function `copyToClipboard` (lines 66-90).  The fallback discards the
value returned by `document.execCommand` (line 77). -/
def copyToClipboard : CopyOutcome → List CopyEffect
  | .writeResolved => [.setIsCopied true, .setTimeout 1500]
  | .writeRejected => []
  | .fallbackReturned _ => [.setIsCopied true, .setTimeout 1500]
  | .fallbackThrew => []

/-- The state after one effect of the hook. -/
def CopyEffect.apply (c : CopyState) : CopyEffect → CopyState
  | .setIsCopied b => { c with isCopied := b }
  | .setTimeout _ => { c with pendingTimers := c.pendingTimers + 1 }

/-- The events of the hook: a call of `copyToClipboard`, or a scheduled timer
firing. -/
inductive CopyEvent where
  | copy (outcome : CopyOutcome)
  | timerFired

/-- The state after an event.  A timer can fire only while one is pending; its
callback is `() => setIsCopied(false)`. -/
def CopyEvent.step (c : CopyState) : CopyEvent → CopyState
  | .copy outcome => (copyToClipboard outcome).foldl CopyEffect.apply c
  | .timerFired =>
    if c.pendingTimers = 0 then c
    else CopyEffect.apply { c with pendingTimers := c.pendingTimers - 1 } (.setIsCopied false)

/-- The state of the hook after a sequence of events. -/
def copyReach (evs : List CopyEvent) : CopyState :=
  evs.foldl CopyEvent.step useCopyToClipboard

/-! ## Theorems -/

/-- Every configured limit is positive, so it is truthy. -/
theorem charLimitOf_ne_zero {p : String} {L : Nat} (h : charLimitOf p = some L) : L ≠ 0 := by
  unfold charLimitOf defaultCharLimits at h
  simp only [List.lookup] at h
  repeat' split at h
  all_goals first
    | (injection h with h; omega)
    | simp at h

/-- A platform has a limit exactly when it has a style. -/
theorem charLimitOf_isSome_iff (p : String) :
    (charLimitOf p).isSome = PLATFORM_STYLES.contains p := by
  unfold charLimitOf defaultCharLimits PLATFORM_STYLES
  simp only [List.lookup, List.contains, List.elem]
  repeat' split
  all_goals simp_all

/-- The constant `max_tokens` for a platform that is not the name of a member
inherited from `Object.prototype`. -/
theorem max_tokens_of_not_inherited {p : String}
    (hp : objectPrototypeMembers.contains p = false) :
    max_tokens p = some (match charLimitOf p with
      | some L => min 500 (L + 50)
      | none => 500) := by
  unfold max_tokens readCharLimit
  cases h : charLimitOf p with
  | none => simp only [hp]; rfl
  | some L => simp [charLimitOf_ne_zero h]

/-- C3, as amended: for every platform value that is not the name of a member
inherited from `Object.prototype` (no value of the platform select is), the
request sent by `generateCaptionWithGPT4` carries `max_tokens` equal to
`min(500, L + 50)` when `defaultCharLimits` has a limit `L` for the platform and
500 otherwise; that is 330 for Twitter (limit 280) and 500 for Instagram,
LinkedIn and Facebook. -/
theorem generateCaptionWithGPT4_max_tokens (cfg : Config) (w : World)
    (messages : List ChatMessage) (p : String)
    (hcfg : cfg.gpt4Missing = false) (hp : objectPrototypeMembers.contains p = false) :
    (generateCaptionWithGPT4 cfg w messages p).1 =
      [.caption (cfg.GPT4_ENDPOINT.getD "") (cfg.AZURE_GPT4_API_KEY.getD "") messages
        (some (match charLimitOf p with
          | some L => min 500 (L + 50)
          | none => 500))] ∧
    charLimitOf "Twitter" = some 280 ∧
    (generateCaptionWithGPT4 cfg w messages "Twitter").1 =
      [.caption (cfg.GPT4_ENDPOINT.getD "") (cfg.AZURE_GPT4_API_KEY.getD "") messages (some 330)] ∧
    (generateCaptionWithGPT4 cfg w messages "Instagram").1 =
      [.caption (cfg.GPT4_ENDPOINT.getD "") (cfg.AZURE_GPT4_API_KEY.getD "") messages (some 500)] ∧
    (generateCaptionWithGPT4 cfg w messages "LinkedIn").1 =
      [.caption (cfg.GPT4_ENDPOINT.getD "") (cfg.AZURE_GPT4_API_KEY.getD "") messages (some 500)] ∧
    (generateCaptionWithGPT4 cfg w messages "Facebook").1 =
      [.caption (cfg.GPT4_ENDPOINT.getD "") (cfg.AZURE_GPT4_API_KEY.getD "") messages (some 500)] ∧
    (∀ q ∈ PLATFORM_STYLES, objectPrototypeMembers.contains q = false) := by
  have hsent : ∀ q, (generateCaptionWithGPT4 cfg w messages q).1 =
      [.caption (cfg.GPT4_ENDPOINT.getD "") (cfg.AZURE_GPT4_API_KEY.getD "") messages
        (max_tokens q)] := by
    intro q
    simp [generateCaptionWithGPT4, hcfg]
  refine ⟨?_, by decide, ?_, ?_, ?_, ?_, by decide⟩
  · rw [hsent, max_tokens_of_not_inherited hp]
  · rw [hsent]; rfl
  · rw [hsent]; rfl
  · rw [hsent]; rfl
  · rw [hsent]; rfl

/-- C3 at Twitter. -/
theorem generateCaptionWithGPT4_max_tokens_witness :
    (generateCaptionWithGPT4 ⟨some "https://img", some "k1", some "https://gpt", some "k2"⟩
      ⟨fun _ => "", fun _ => "", none, .rejected "" none, .rejected "" none, false⟩
      [] "Twitter").1 = [.caption "https://gpt" "k1" [] (some 330)] :=
  (generateCaptionWithGPT4_max_tokens
    ⟨some "https://img", some "k1", some "https://gpt", some "k2"⟩
    ⟨fun _ => "", fun _ => "", none, .rejected "" none, .rejected "" none, false⟩
    [] "Twitter" rfl (by decide)).1

/-- C3 as stated fails: `defaultCharLimits` has no limit for the platform value
`constructor`, yet the read `defaultCharLimits[platform]` finds the member
inherited from `Object.prototype`, and the request carries `NaN`, not 500. -/
theorem generateCaptionWithGPT4_max_tokens_constructor :
    charLimitOf "constructor" = none ∧
    (generateCaptionWithGPT4 ⟨some "https://img", some "k1", some "https://gpt", some "k2"⟩
      ⟨fun _ => "", fun _ => "", none, .rejected "" none, .rejected "" none, false⟩
      [] "constructor").1 = [.caption "https://gpt" "k1" [] none] ∧
    (none : Option Nat) ≠ some 500 :=
  ⟨by decide, rfl, by decide⟩

/-- A platform with a limit has a style, so its preview renders. -/
theorem PlatformPostPreview_renders {p : String} {L : Nat} (h : charLimitOf p = some L)
    (content : Option String) :
    ∃ text, PlatformPostPreview p content = .ok
      { charLimit := .own L
        charCount := (content.map jsLength).getD 0
        isOverLimit := decide (L < (content.map jsLength).getD 0)
        charsText := text } := by
  have hs : PLATFORM_STYLES.contains p = true := by
    rw [← charLimitOf_isSome_iff, h]; rfl
  have hL : (L != 0) = true := by simpa using charLimitOf_ne_zero h
  simp only [PlatformPostPreview, readCharLimit, h, hs, if_true, hL, Bool.true_and]
  cases content <;> exact ⟨_, rfl⟩

/-- Without a configured limit the read of the limit is an inherited member or
`undefined`. -/
theorem readCharLimit_of_none {p : String} (h : charLimitOf p = none) :
    readCharLimit p = .inherited ∨ readCharLimit p = .undefined := by
  unfold readCharLimit
  rw [h]
  by_cases hm : objectPrototypeMembers.contains p = true
  · left; simp only [hm]; rfl
  · right; simp only [hm]; rfl

/-- Whatever the preview renders carries the count of its content and is over
the limit only under a configured limit. -/
theorem PlatformPostPreview_footer {p : String} {content : Option String} {f : PreviewFooter}
    (hf : PlatformPostPreview p content = .ok f) :
    f.charCount = (content.map jsLength).getD 0 ∧
    (charLimitOf p = none → f.isOverLimit = false) := by
  revert hf
  have key : ∀ g : PreviewFooter,
      g.charCount = (match content with
        | some c => jsLength c
        | none => 0) →
      g.isOverLimit = (match readCharLimit p with
        | .own L => L != 0 && decide ((match content with
            | some c => jsLength c
            | none => 0) > L)
        | .inherited => false
        | .undefined => false) →
      g.charCount = (content.map jsLength).getD 0 ∧
      (charLimitOf p = none → g.isOverLimit = false) := by
    intro g hc ho
    refine ⟨?_, ?_⟩
    · rw [hc]; cases content <;> rfl
    · intro hnone
      rw [ho]
      rcases readCharLimit_of_none hnone with h | h <;> simp only [h]
  intro hf
  simp only [PlatformPostPreview] at hf
  split at hf
  · injection hf with hf
    exact key f (by rw [← hf]) (by rw [← hf])
  · split at hf
    · cases hf
    · split at hf
      · injection hf with hf
        exact key f (by rw [← hf]) (by rw [← hf])
      · cases hf

/-- C8: in `PlatformPostPreview`, under a configured limit `L` the preview
renders and is marked over-limit exactly when the length of the content
exceeds `L` (a content of length `L` is not over-limit); without a configured
limit nothing rendered is marked over-limit; absent or empty content has
character count 0. -/
theorem PlatformPostPreview_overLimit (p : String) :
    (∀ L, charLimitOf p = some L → ∀ c : String,
      ∃ f, PlatformPostPreview p (some c) = .ok f ∧ f.charCount = jsLength c ∧
        (f.isOverLimit = true ↔ jsLength c > L) ∧
        (jsLength c = L → f.isOverLimit = false)) ∧
    (charLimitOf p = none → ∀ content f,
      PlatformPostPreview p content = .ok f → f.isOverLimit = false) ∧
    (∀ f, PlatformPostPreview p none = .ok f → f.charCount = 0) ∧
    (∀ f, PlatformPostPreview p (some "") = .ok f → f.charCount = 0) := by
  refine ⟨?_, ?_, ?_, ?_⟩
  · intro L h c
    obtain ⟨text, ht⟩ := PlatformPostPreview_renders h (some c)
    refine ⟨_, ht, rfl, ?_, ?_⟩
    · simp
    · intro hc; simp [hc]
  · intro h content f hf
    exact (PlatformPostPreview_footer hf).2 h
  · intro f hf
    exact (PlatformPostPreview_footer hf).1
  · intro f hf
    exact (PlatformPostPreview_footer hf).1

/-- C8 at Twitter with a five-character caption. -/
theorem PlatformPostPreview_overLimit_witness :
    ∃ f, PlatformPostPreview "Twitter" (some "hello") = .ok f ∧ f.charCount = jsLength "hello" ∧
        (f.isOverLimit = true ↔ jsLength "hello" > 280) ∧
        (jsLength "hello" = 280 → f.isOverLimit = false) :=
  (PlatformPostPreview_overLimit "Twitter").1 280 (by decide) "hello"

/-- The revocation statement is empty or one call. -/
theorem revokePreview_cases (s : DashState) :
    revokePreview s = [] ∨ ∃ u, revokePreview s = [.revokeObjectURL u] := by
  unfold revokePreview
  split
  · split
    · exact Or.inr ⟨_, rfl⟩
    · exact Or.inl rfl
  · exact Or.inl rfl

/-- The handler `handleImageChange` issues no request. -/
theorem requestsOf_handleImageChange (s : DashState) (file : Option File) (url : String) :
    requestsOf (handleImageChange s file url) = [] := by
  unfold handleImageChange
  rcases revokePreview_cases s with h | ⟨u, h⟩ <;> rw [h] <;> cases file <;>
    simp only [] <;> repeat' split
  all_goals rfl

/-- State after an image file above the ceiling. -/
theorem handleImageChange_tooLarge (s : DashState) (f : File) (url : String)
    (himg : strStartsWith f.type "image/" = true) (hsize : f.size > 4 * 1024 * 1024) :
    runEffects s (handleImageChange s (some f) url) =
      { s with
        error := some "Image file is too large (Max 4MB for Vision API). Please choose a smaller image."
        uploadedImage := none
        imagePreviewUrl := none } := by
  rcases revokePreview_cases s with h | ⟨u, h⟩ <;>
    simp [handleImageChange, himg, hsize, h, runEffects, Effect.apply]

/-- State after an accepted image file. -/
theorem handleImageChange_accepted (s : DashState) (f : File) (url : String)
    (himg : strStartsWith f.type "image/" = true) (hsize : f.size ≤ 4 * 1024 * 1024) :
    runEffects s (handleImageChange s (some f) url) =
      { s with
        error := none
        uploadedImage := some f
        imagePreviewUrl := some url
        wantImage := false } := by
  have : ¬ f.size > 4 * 1024 * 1024 := by omega
  rcases revokePreview_cases s with h | ⟨u, h⟩ <;>
    simp [handleImageChange, himg, this, h, runEffects, Effect.apply]

/-- State after a file that is not an image. -/
theorem handleImageChange_notImage (s : DashState) (f : File) (url : String)
    (himg : strStartsWith f.type "image/" = false) :
    runEffects s (handleImageChange s (some f) url) =
      { s with
        error := some "Please select a valid image file (JPG, PNG, GIF, WEBP)."
        uploadedImage := none
        imagePreviewUrl := none } := by
  rcases revokePreview_cases s with h | ⟨u, h⟩ <;>
    simp [handleImageChange, himg, h, runEffects, Effect.apply]

/-- State after an empty selection. -/
theorem handleImageChange_noFile (s : DashState) (url : String) :
    runEffects s (handleImageChange s none url) =
      { s with error := none, uploadedImage := none, imagePreviewUrl := none } := by
  rcases revokePreview_cases s with h | ⟨u, h⟩ <;>
    simp [handleImageChange, h, runEffects, Effect.apply]

/-- State after `clearUploadedImage`. -/
theorem clearUploadedImage_state (s : DashState) :
    runEffects s (clearUploadedImage s) =
      { s with error := none, uploadedImage := none, imagePreviewUrl := none } := by
  rcases revokePreview_cases s with h | ⟨u, h⟩ <;>
    simp [clearUploadedImage, h, runEffects, Effect.apply]

/-- C6: a selected file of more than 4 × 1024 × 1024 = 4194304 bytes leaves
`handleImageChange` with an error, no uploaded image and no preview URL, and
no request is issued; for an image-typed file the message names the 4MB
ceiling.  The bound is strict: an image-typed file of exactly 4194304 bytes is
accepted. -/
theorem handleImageChange_oversized (s : DashState) (f : File) (previewUrl : String)
    (hsize : f.size > 4194304) :
    4 * 1024 * 1024 = 4194304 ∧
    (runEffects s (handleImageChange s (some f) previewUrl)).error ≠ none ∧
    (runEffects s (handleImageChange s (some f) previewUrl)).uploadedImage = none ∧
    (runEffects s (handleImageChange s (some f) previewUrl)).imagePreviewUrl = none ∧
    requestsOf (handleImageChange s (some f) previewUrl) = [] ∧
    (strStartsWith f.type "image/" = true →
      ∃ msg, (runEffects s (handleImageChange s (some f) previewUrl)).error = some msg ∧
        strIncludes msg "Max 4MB" = true) ∧
    (∀ g : File, strStartsWith g.type "image/" = true → g.size = 4194304 →
      (runEffects s (handleImageChange s (some g) previewUrl)).uploadedImage = some g ∧
      (runEffects s (handleImageChange s (some g) previewUrl)).imagePreviewUrl = some previewUrl ∧
      (runEffects s (handleImageChange s (some g) previewUrl)).error = none) := by
  refine ⟨by norm_num, ?_, ?_, ?_, requestsOf_handleImageChange _ _ _, ?_, ?_⟩
  · cases himg : strStartsWith f.type "image/"
    · rw [handleImageChange_notImage s f previewUrl himg]; simp
    · rw [handleImageChange_tooLarge s f previewUrl himg (by omega)]; simp
  · cases himg : strStartsWith f.type "image/"
    · rw [handleImageChange_notImage s f previewUrl himg]
    · rw [handleImageChange_tooLarge s f previewUrl himg (by omega)]
  · cases himg : strStartsWith f.type "image/"
    · rw [handleImageChange_notImage s f previewUrl himg]
    · rw [handleImageChange_tooLarge s f previewUrl himg (by omega)]
  · intro himg
    rw [handleImageChange_tooLarge s f previewUrl himg (by omega)]
    exact ⟨_, rfl, by decide⟩
  · intro g himg hg
    rw [handleImageChange_accepted s g previewUrl himg (by omega)]
    exact ⟨rfl, rfl, rfl⟩

/-- C6 at a JPEG of 5 MiB picked in the initial state. -/
theorem handleImageChange_oversized_witness :
    (runEffects DashState.initial
      (handleImageChange DashState.initial (some ⟨"big.jpg", "image/jpeg", 5242880⟩) "blob:1")).error ≠ none ∧
    requestsOf (handleImageChange DashState.initial (some ⟨"big.jpg", "image/jpeg", 5242880⟩) "blob:1") = [] :=
  have h := handleImageChange_oversized DashState.initial ⟨"big.jpg", "image/jpeg", 5242880⟩ "blob:1"
    (by decide)
  ⟨h.2.1, h.2.2.2.2.1⟩

/-- Effects that leave two cells alone leave them alone when folded. -/
theorem runEffects_keeps_image_cells (effs : List Effect)
    (h : ∀ e ∈ effs, ∀ t : DashState,
      (Effect.apply t e).uploadedImage = t.uploadedImage ∧
      (Effect.apply t e).wantImage = t.wantImage) (s : DashState) :
    (runEffects s effs).uploadedImage = s.uploadedImage ∧
    (runEffects s effs).wantImage = s.wantImage := by
  induction effs generalizing s with
  | nil => exact ⟨rfl, rfl⟩
  | cons e es ih =>
    have he := h e (List.mem_cons_self _ _) s
    have hes := ih (fun e' he' => h e' (List.mem_cons_of_mem _ he')) (Effect.apply s e)
    show (runEffects (Effect.apply s e) es).uploadedImage = _ ∧
      (runEffects (Effect.apply s e) es).wantImage = _
    exact ⟨hes.1.trans he.1, hes.2.trans he.2⟩

/-- The handler `handleGeneratePost` calls no setter of the image cells. -/
theorem handleGeneratePost_keeps_image_cells (cfg : Config) (w : World) (s : DashState) :
    ∀ e ∈ handleGeneratePost cfg w s, ∀ t : DashState,
      (Effect.apply t e).uploadedImage = t.uploadedImage ∧
      (Effect.apply t e).wantImage = t.wantImage := by
  intro e he t
  unfold handleGeneratePost at he
  split at he
  · simp at he; subst he; exact ⟨rfl, rfl⟩
  split at he
  · simp at he; subst he; exact ⟨rfl, rfl⟩
  split at he
  · simp at he; subst he; exact ⟨rfl, rfl⟩
  split at he
  · simp at he; subst he; exact ⟨rfl, rfl⟩
  simp only [List.mem_append, List.mem_cons, List.mem_map, List.mem_singleton,
    List.not_mem_nil, or_false] at he
  rcases he with (((h | h | h) | ⟨r, _, h⟩) | h) | h
  · subst h; exact ⟨rfl, rfl⟩
  · subst h; exact ⟨rfl, rfl⟩
  · subst h; exact ⟨rfl, rfl⟩
  · subst h; exact ⟨rfl, rfl⟩
  · split at h
    · simp at h; subst h; exact ⟨rfl, rfl⟩
    · split at h
      · simp at h; rcases h with h | h <;> (subst h; exact ⟨rfl, rfl⟩)
      · simp at h
  · subst h; exact ⟨rfl, rfl⟩

/-- One event keeps the exclusion between an upload and the image request. -/
theorem step_keeps_exclusion (cfg : Config) (s : DashState) (ev : UiEvent)
    (h : s.uploadedImage ≠ none → s.wantImage = false) :
    (step cfg s ev).uploadedImage ≠ none → (step cfg s ev).wantImage = false := by
  cases ev with
  | imageChange file url =>
    simp only [step, UiEvent.effects]
    cases file with
    | none => rw [handleImageChange_noFile]; intro h'; exact absurd rfl h'
    | some f =>
      cases himg : strStartsWith f.type "image/"
      · rw [handleImageChange_notImage s f url himg]; intro h'; exact absurd rfl h'
      · by_cases hsize : f.size > 4 * 1024 * 1024
        · rw [handleImageChange_tooLarge s f url himg hsize]; intro h'; exact absurd rfl h'
        · rw [handleImageChange_accepted s f url himg (by omega)]; intro _; rfl
  | clearImage =>
    simp only [step, UiEvent.effects]
    rw [clearUploadedImage_state]; intro h'; exact absurd rfl h'
  | wantImageClick =>
    simp only [step, UiEvent.effects, clickWantImage]
    split
    · rename_i hc
      simp only [Bool.and_eq_true] at hc
      intro h'
      simp [runEffects, Effect.apply] at h'
      have := hc.2
      simp [Option.isNone_iff_eq_none] at this
      exact absurd this h'
    · exact h
  | editPrompt v => exact h
  | selectPostType v => exact h
  | selectPlatform v => exact h
  | generate w =>
    simp only [step, UiEvent.effects]
    have hk := runEffects_keeps_image_cells _ (handleGeneratePost_keeps_image_cells cfg w s) s
    rw [hk.1, hk.2]
    exact h

/-- The exclusion holds along every run from a state where it holds. -/
theorem foldl_step_keeps_exclusion (cfg : Config) (evs : List UiEvent) (s : DashState)
    (h : s.uploadedImage ≠ none → s.wantImage = false) :
    (evs.foldl (step cfg) s).uploadedImage ≠ none → (evs.foldl (step cfg) s).wantImage = false := by
  induction evs generalizing s with
  | nil => exact h
  | cons ev evs ih => exact ih (step cfg s ev) (step_keeps_exclusion cfg s ev h)

/-- C5: in every state reached from the initial state by a sequence of events
(file selection, clearing the image, clicking the DALL-E label, editing the
prompt, selecting style or platform, generating), an uploaded image implies
`wantImage = false`; and once `handleImageChange` accepts an image, `wantImage` is
false whatever it was before. -/
theorem upload_excludes_wantImage (cfg : Config) (evs : List UiEvent) :
    ((reach cfg evs).uploadedImage ≠ none → (reach cfg evs).wantImage = false) ∧
    (∀ (s : DashState) (f : File) (previewUrl : String),
      strStartsWith f.type "image/" = true → f.size ≤ 4 * 1024 * 1024 →
      (runEffects s (handleImageChange s (some f) previewUrl)).uploadedImage = some f ∧
      (runEffects s (handleImageChange s (some f) previewUrl)).wantImage = false) := by
  refine ⟨foldl_step_keeps_exclusion cfg evs _ (fun h => absurd rfl h), ?_⟩
  intro s f url himg hsize
  rw [handleImageChange_accepted s f url himg hsize]
  exact ⟨rfl, rfl⟩

/-- C5 at the run: pick an image, then click the DALL-E label. -/
theorem upload_excludes_wantImage_witness :
    (reach ⟨none, none, none, none⟩
      [.imageChange (some ⟨"a.png", "image/png", 1024⟩) "blob:1", .wantImageClick]).uploadedImage ≠ none ∧
    (reach ⟨none, none, none, none⟩
      [.imageChange (some ⟨"a.png", "image/png", 1024⟩) "blob:1", .wantImageClick]).wantImage = false :=
  have h := (upload_excludes_wantImage ⟨none, none, none, none⟩
    [.imageChange (some ⟨"a.png", "image/png", 1024⟩) "blob:1", .wantImageClick]).1
  ⟨by decide, h (by decide)⟩

/-- Trimming a string of whitespace leaves nothing. -/
theorem jsTrim_of_all_whitespace {s : String} (h : ∀ c ∈ s.data, isJsWhitespace c = true) :
    jsTrim s = "" := by
  have h1 : s.data.dropWhile isJsWhitespace = [] := by
    rw [List.dropWhile_eq_nil_iff]; exact h
  unfold jsTrim
  rw [h1]
  rfl

/-- No message built by the `catch` is the prompt-or-image message. -/
theorem describeError_ne_promptOrImage (w : World) (err : JsError) :
    describeError w err ≠ .ok promptOrImageMessage := by
  intro h
  unfold describeError at h
  cases err with
  | other =>
    simp only [] at h
    injection h with h
    exact absurd h (by decide)
  | error m =>
    simp only [] at h
    injection h with h
    have := congrArg String.data h
    simp [promptOrImageMessage] at this
  | axios message url response =>
    simp only [] at h
    repeat' split at h
    all_goals first
      | cases h
      | (injection h with h
         have := congrArg String.data h
         simp [promptOrImageMessage, authGuidance, endpointGuidance, quotaGuidance,
           networkGuidance] at this)

/-- Folding effects over a concatenation. -/
theorem runEffects_append (s : DashState) (a b : List Effect) :
    runEffects s (a ++ b) = runEffects (runEffects s a) b := by
  simp [runEffects, List.foldl_append]

/-- Issuing requests changes no state cell. -/
theorem runEffects_axiosPost (s : DashState) (reqs : List HttpRequest) :
    runEffects s (reqs.map Effect.axiosPost) = s := by
  induction reqs with
  | nil => rfl
  | cons r rs ih => exact ih

/-- The requests of a concatenation. -/
theorem requestsOf_append (a b : List Effect) :
    requestsOf (a ++ b) = requestsOf a ++ requestsOf b := by
  simp [requestsOf, List.filterMap_append]

/-- The requests among issued requests are all of them. -/
theorem requestsOf_axiosPost (reqs : List HttpRequest) :
    requestsOf (reqs.map Effect.axiosPost) = reqs := by
  induction reqs with
  | nil => rfl
  | cons r rs ih =>
    show r :: requestsOf (rs.map Effect.axiosPost) = r :: rs
    rw [ih]

/-- The effects of `handleGeneratePost` once the four guards of lines 229-233
are passed. -/
theorem handleGeneratePost_guarded {cfg : Config} {w : World} {s : DashState}
    (h₁ : (!strTruthy (jsTrim s.userPrompt) && s.uploadedImage.isNone) = false)
    (h₂ : (s.uploadedImage.isSome && cfg.gpt4Missing) = false)
    (h₃ : (s.uploadedImage.isNone && s.wantImage && cfg.dalleMissing) = false)
    (h₄ : (s.uploadedImage.isNone && !s.wantImage && cfg.gpt4Missing) = false) :
    handleGeneratePost cfg w s =
      [.setLoading true, .setError none, .setGeneratedPost none] ++
      (generateResult cfg w s).1.map Effect.axiosPost ++
      (match (generateResult cfg w s).2 with
        | .ok result => [.setGeneratedPost (some result)]
        | .error err =>
          match describeError w err with
          | .ok errorMessage => [.setError (some errorMessage), .setGeneratedPost none]
          | .error _ => []) ++
      [.setLoading false] := by
  unfold handleGeneratePost
  rw [h₁, h₂, h₃, h₄]
  rfl

/-- The requests of `handleGeneratePost` past the guards are those of the `try`
block. -/
theorem requestsOf_handleGeneratePost_guarded {cfg : Config} {w : World} {s : DashState}
    (h₁ : (!strTruthy (jsTrim s.userPrompt) && s.uploadedImage.isNone) = false)
    (h₂ : (s.uploadedImage.isSome && cfg.gpt4Missing) = false)
    (h₃ : (s.uploadedImage.isNone && s.wantImage && cfg.dalleMissing) = false)
    (h₄ : (s.uploadedImage.isNone && !s.wantImage && cfg.gpt4Missing) = false) :
    requestsOf (handleGeneratePost cfg w s) = (generateResult cfg w s).1 := by
  rw [handleGeneratePost_guarded h₁ h₂ h₃ h₄]
  simp only [requestsOf_append, requestsOf_axiosPost]
  generalize (generateResult cfg w s).2 = r
  cases r with
  | ok r => simp [requestsOf]
  | error e =>
    simp only []
    generalize describeError w e = d
    cases d <;> simp [requestsOf]

/-- The state after `handleGeneratePost` past the guards. -/
theorem runEffects_handleGeneratePost_guarded {cfg : Config} {w : World} {s : DashState}
    (h₁ : (!strTruthy (jsTrim s.userPrompt) && s.uploadedImage.isNone) = false)
    (h₂ : (s.uploadedImage.isSome && cfg.gpt4Missing) = false)
    (h₃ : (s.uploadedImage.isNone && s.wantImage && cfg.dalleMissing) = false)
    (h₄ : (s.uploadedImage.isNone && !s.wantImage && cfg.gpt4Missing) = false) :
    runEffects s (handleGeneratePost cfg w s) =
      match (generateResult cfg w s).2 with
      | .ok result => { s with loading := false, error := none, generatedPost := some result }
      | .error err =>
        match describeError w err with
        | .ok errorMessage =>
          { s with loading := false, error := some errorMessage, generatedPost := none }
        | .error _ => { s with loading := false, error := none, generatedPost := none } := by
  rw [handleGeneratePost_guarded h₁ h₂ h₃ h₄]
  simp only [runEffects_append, runEffects_axiosPost]
  generalize (generateResult cfg w s).2 = r
  cases r with
  | ok r => rfl
  | error e =>
    simp only []
    generalize describeError w e = d
    cases d <;> rfl

/-- The first guard of `handleGeneratePost` fires exactly when the trimmed prompt
is empty and no image is uploaded. -/
theorem promptGuard_eq_false {s : DashState}
    (h : jsTrim s.userPrompt ≠ "" ∨ s.uploadedImage ≠ none) :
    (!strTruthy (jsTrim s.userPrompt) && s.uploadedImage.isNone) = false := by
  rcases h with h | h
  · simp [strTruthy, h]
  · cases hu : s.uploadedImage with
    | none => exact absurd hu h
    | some f => simp

/-- C7: when the prompt is empty or only whitespace and no image is uploaded,
`handleGeneratePost` sets the error to "Please enter a prompt OR upload an
image.", issues no request and never sets `loading` to true; when the trimmed
prompt is non-empty or an image is uploaded, that message is neither passed to
`setError` nor left in the state. -/
theorem handleGeneratePost_needs_prompt_or_image (cfg : Config) (w : World) (s : DashState) :
    promptOrImageMessage = "Please enter a prompt OR upload an image." ∧
    ((∀ c ∈ s.userPrompt.data, isJsWhitespace c = true) → s.uploadedImage = none →
      (runEffects s (handleGeneratePost cfg w s)).error = some promptOrImageMessage ∧
      requestsOf (handleGeneratePost cfg w s) = [] ∧
      Effect.setLoading true ∉ handleGeneratePost cfg w s) ∧
    (jsTrim s.userPrompt ≠ "" ∨ s.uploadedImage ≠ none →
      Effect.setError (some promptOrImageMessage) ∉ handleGeneratePost cfg w s ∧
      (runEffects s (handleGeneratePost cfg w s)).error ≠ some promptOrImageMessage) := by
  refine ⟨rfl, ?_, ?_⟩
  · intro hws hno
    have ht : jsTrim s.userPrompt = "" := jsTrim_of_all_whitespace hws
    have he : handleGeneratePost cfg w s = [.setError (some promptOrImageMessage)] := by
      unfold handleGeneratePost
      simp [ht, hno, strTruthy]
    rw [he]
    refine ⟨rfl, rfl, ?_⟩
    simp
  · intro hpre
    have h₁ := promptGuard_eq_false hpre
    unfold handleGeneratePost
    rw [h₁]
    simp only [Bool.false_eq_true, if_false]
    split
    · refine ⟨?_, ?_⟩
      · simp [promptOrImageMessage]
      · simp [runEffects, Effect.apply, promptOrImageMessage]
    split
    · refine ⟨?_, ?_⟩
      · simp [promptOrImageMessage]
      · simp [runEffects, Effect.apply, promptOrImageMessage]
    split
    · refine ⟨?_, ?_⟩
      · simp [promptOrImageMessage]
      · simp [runEffects, Effect.apply, promptOrImageMessage]
    refine ⟨?_, ?_⟩
    · simp only [List.mem_append, List.mem_cons, List.mem_map, List.mem_singleton,
        List.not_mem_nil, or_false]
      rintro ((((h | h | h) | ⟨r, _, h⟩) | h) | h)
      · cases h
      · cases h
      · cases h
      · cases h
      · split at h
        · simp at h
        · split at h
          · rename_i m hm
            simp at h
            subst h
            exact describeError_ne_promptOrImage w _ hm
          · simp at h
      · cases h
    · simp only [runEffects_append, runEffects_axiosPost]
      generalize (generateResult cfg w s).2 = r
      cases r with
      | ok r => simp [runEffects, Effect.apply]
      | error e =>
        simp only []
        cases hd : describeError w e with
        | ok m =>
          simp only [runEffects, Effect.apply, List.foldl]
          intro h
          injection h with h
          subst h
          exact describeError_ne_promptOrImage w _ hd
        | error e' => simp [runEffects, Effect.apply]

/-- C7 at the initial state, whose prompt is empty, and at the prompt "hi" with
the caption endpoint unreachable. -/
theorem handleGeneratePost_needs_prompt_or_image_witness :
    (runEffects DashState.initial
      (handleGeneratePost ⟨some "https://img", some "k", some "https://gpt", some "k"⟩
        ⟨fun _ => "", fun _ => "", none, .rejected "" none, .rejected "" none, false⟩
        DashState.initial)).error = some promptOrImageMessage ∧
    (runEffects { DashState.initial with userPrompt := "hi" }
      (handleGeneratePost ⟨some "https://img", some "k", some "https://gpt", some "k"⟩
        ⟨fun _ => "", fun _ => "", none, .rejected "" none, .rejected "" none, false⟩
        { DashState.initial with userPrompt := "hi" })).error ≠ some promptOrImageMessage :=
  ⟨((handleGeneratePost_needs_prompt_or_image
      ⟨some "https://img", some "k", some "https://gpt", some "k"⟩
      ⟨fun _ => "", fun _ => "", none, .rejected "" none, .rejected "" none, false⟩
      DashState.initial).2.1 (by decide) rfl).1,
   ((handleGeneratePost_needs_prompt_or_image
      ⟨some "https://img", some "k", some "https://gpt", some "k"⟩
      ⟨fun _ => "", fun _ => "", none, .rejected "" none, .rejected "" none, false⟩
      { DashState.initial with userPrompt := "hi" }).2.2 (Or.inl (by decide))).2⟩

/-- The message the `catch` builds for an answered request whose body trips
neither body test. -/
theorem describeError_answered {w : World} {message url : String} {status : Nat} {data : JsVal}
    (hpolicy : contentPolicyHit w data = .ok false)
    (himage : imageIssueHit w data = .ok false) :
    (status = 401 → describeError w (.axios message url (some (status, data))) = .ok authGuidance) ∧
    (status = 404 →
      describeError w (.axios message url (some (status, data))) = .ok (endpointGuidance url)) ∧
    (status = 429 → describeError w (.axios message url (some (status, data))) = .ok quotaGuidance) := by
  refine ⟨?_, ?_, ?_⟩ <;> intro hs <;> subst hs <;>
    simp [describeError, hpolicy, himage]

/-- The message the `catch` builds for a request that got no response. -/
theorem describeError_unanswered (w : World) (message url : String) :
    describeError w (.axios message url none) = .ok (networkGuidance url message) := by
  simp [describeError, contentPolicyHit, imageIssueHit, apiErrorMsgOf, jsIncludes,
    JsVal.optProp, JsVal.isNullish, JsVal.or, JsVal.truthy, JsVal.isStr]

/-- The four guidance messages are pairwise distinct. -/
theorem guidance_distinct (url url' message : String) :
    authGuidance ≠ endpointGuidance url ∧ authGuidance ≠ quotaGuidance ∧
    authGuidance ≠ networkGuidance url message ∧ endpointGuidance url ≠ quotaGuidance ∧
    endpointGuidance url ≠ networkGuidance url' message ∧
    quotaGuidance ≠ networkGuidance url message := by
  refine ⟨?_, ?_, ?_, ?_, ?_, ?_⟩ <;> intro h <;>
    · have := congrArg String.data h
      simp [authGuidance, endpointGuidance, quotaGuidance, networkGuidance] at this

/-- An `AxiosError` out of the `try` block means the four guards were passed:
only a request that was issued can fail that way. -/
theorem generateResult_axios_guards {cfg : Config} {w : World} {s : DashState}
    {message url : String} {response : Option (Nat × JsVal)}
    (h : (generateResult cfg w s).2 = .error (.axios message url response)) :
    (!strTruthy (jsTrim s.userPrompt) && s.uploadedImage.isNone) = false ∧
    (s.uploadedImage.isSome && cfg.gpt4Missing) = false ∧
    (s.uploadedImage.isNone && s.wantImage && cfg.dalleMissing) = false ∧
    (s.uploadedImage.isNone && !s.wantImage && cfg.gpt4Missing) = false := by
  unfold generateResult at h
  cases hu : s.uploadedImage with
  | some file =>
    simp only [hu] at h
    refine ⟨by simp, ?_, by simp, by simp⟩
    cases hg : cfg.gpt4Missing with
    | false => simp
    | true =>
      cases hf : w.fileToBase64 <;> simp [hf, generateCaptionWithGPT4, hg, Except.map] at h
  | none =>
    simp only [hu] at h
    cases hp : strTruthy (jsTrim s.userPrompt) with
    | false => simp [hp] at h
    | true =>
      simp only [hp, if_true] at h
      cases hw : s.wantImage with
      | false =>
        refine ⟨by simp, by simp, by simp, ?_⟩
        cases hg : cfg.gpt4Missing with
        | false => simp
        | true => simp [hw, generateCaptionWithGPT4, hg, Except.map] at h
      | true =>
        refine ⟨by simp, by simp, ?_, by simp⟩
        cases hd : cfg.dalleMissing with
        | false => simp
        | true =>
          simp only [hw, if_true, generateImageWithDalle, hd] at h
          unfold promiseAll generateCaptionWithGPT4 at h
          cases hg : cfg.gpt4Missing <;> simp only [hg] at h
          · cases hc : w.captionPost with
            | resolved data hdrs =>
              simp only [hc] at h
              cases hcap : captionOfBody w data <;> simp [hcap, Except.map] at h
            | rejected m r => simp [hc, Except.map] at h
          · simp [Except.map] at h

/-- The state left by `handleGeneratePost` when its `try` block throws an
`AxiosError` that the `catch` turns into a message. -/
theorem handleGeneratePost_axios_message {cfg : Config} {w : World} {s : DashState}
    {message url msg : String} {response : Option (Nat × JsVal)}
    (hcaught : (generateResult cfg w s).2 = .error (.axios message url response))
    (hmsg : describeError w (.axios message url response) = .ok msg) :
    (runEffects s (handleGeneratePost cfg w s)).error = some msg := by
  obtain ⟨h₁, h₂, h₃, h₄⟩ := generateResult_axios_guards hcaught
  rw [runEffects_handleGeneratePost_guarded h₁ h₂ h₃ h₄, hcaught]
  simp only [hmsg]

/-- C9, as amended: when `handleGeneratePost` catches an axios error on whose
response body the content-safety test of line 293 and the image-processing test
of line 294 both evaluate to `false` (neither fires and neither throws, so
`error.code` and the API message are each absent, `null`, a string or an
array), the message shown is the authentication guidance for status 401, the
endpoint guidance for 404 and the quota guidance for 429; an error without any
response always gets the network guidance.  The four guidance messages are
pairwise distinct. -/
theorem handleGeneratePost_status_guidance (cfg : Config) (w : World) (s : DashState)
    (message url : String) (response : Option (Nat × JsVal))
    (hcaught : (generateResult cfg w s).2 = .error (.axios message url response))
    (hbody : ∀ status data, response = some (status, data) →
      contentPolicyHit w data = .ok false ∧ imageIssueHit w data = .ok false) :
    (∀ data, response = some (401, data) →
      (runEffects s (handleGeneratePost cfg w s)).error = some authGuidance) ∧
    (∀ data, response = some (404, data) →
      (runEffects s (handleGeneratePost cfg w s)).error = some (endpointGuidance url)) ∧
    (∀ data, response = some (429, data) →
      (runEffects s (handleGeneratePost cfg w s)).error = some quotaGuidance) ∧
    (response = none →
      (runEffects s (handleGeneratePost cfg w s)).error = some (networkGuidance url message)) ∧
    (∀ u u' m : String,
      authGuidance ≠ endpointGuidance u ∧ authGuidance ≠ quotaGuidance ∧
      authGuidance ≠ networkGuidance u m ∧ endpointGuidance u ≠ quotaGuidance ∧
      endpointGuidance u ≠ networkGuidance u' m ∧ quotaGuidance ≠ networkGuidance u m) := by
  refine ⟨?_, ?_, ?_, ?_, fun u u' m => guidance_distinct u u' m⟩
  · intro data hr
    subst hr
    obtain ⟨hp, hi⟩ := hbody 401 data rfl
    exact handleGeneratePost_axios_message hcaught ((describeError_answered hp hi).1 rfl)
  · intro data hr
    subst hr
    obtain ⟨hp, hi⟩ := hbody 404 data rfl
    exact handleGeneratePost_axios_message hcaught ((describeError_answered hp hi).2.1 rfl)
  · intro data hr
    subst hr
    obtain ⟨hp, hi⟩ := hbody 429 data rfl
    exact handleGeneratePost_axios_message hcaught ((describeError_answered hp hi).2.2 rfl)
  · intro hr
    subst hr
    exact handleGeneratePost_axios_message hcaught (describeError_unanswered w message url)

/-- C9 at a text-only request answered 401 with the body
`{"error": {"code": "401", "message": "Access denied"}}`. -/
theorem handleGeneratePost_status_guidance_witness :
    (runEffects { DashState.initial with userPrompt := "launch of our new app" }
      (handleGeneratePost ⟨some "https://img", some "k1", some "https://gpt", some "k2"⟩
        ⟨fun _ => "", fun _ => "", none,
          .rejected "Request failed with status code 401"
            (some (401, .obj [("error", .obj [("code", .str "401"), ("message", .str "Access denied")])])),
          .rejected "" none, false⟩
        { DashState.initial with userPrompt := "launch of our new app" })).error =
      some authGuidance :=
  (handleGeneratePost_status_guidance
    ⟨some "https://img", some "k1", some "https://gpt", some "k2"⟩
    ⟨fun _ => "", fun _ => "", none,
      .rejected "Request failed with status code 401"
        (some (401, .obj [("error", .obj [("code", .str "401"), ("message", .str "Access denied")])])),
      .rejected "" none, false⟩
    { DashState.initial with userPrompt := "launch of our new app" }
    "Request failed with status code 401" "https://gpt"
    (some (401, .obj [("error", .obj [("code", .str "401"), ("message", .str "Access denied")])]))
    rfl
    (by
      intro status data h
      injection h with h
      injection h with _ h
      subst h
      exact ⟨rfl, rfl⟩)).1 _ rfl

/-- C9 as stated fails: a 401 whose body carries the error code
`content_filter` is shown the content-safety message, not the authentication
guidance. -/
theorem handleGeneratePost_401_content_filter :
    (runEffects { DashState.initial with userPrompt := "launch of our new app" }
      (handleGeneratePost ⟨some "https://img", some "k1", some "https://gpt", some "k2"⟩
        ⟨fun _ => "", fun _ => "", none,
          .rejected "Request failed with status code 401"
            (some (401, .obj [("error",
              .obj [("code", .str "content_filter"), ("message", .str "Request blocked")])])),
          .rejected "" none, false⟩
        { DashState.initial with userPrompt := "launch of our new app" })).error =
      some "API Error (401): Request blocked - Content safety policy violation." ∧
    "API Error (401): Request blocked - Content safety policy violation." ≠ authGuidance := by
  decide

/-- The four guards are passed when the precondition holds and both services
are configured. -/
theorem guards_of_configured {cfg : Config} {s : DashState}
    (hg : cfg.gpt4Missing = false) (hd : cfg.dalleMissing = false)
    (hpre : jsTrim s.userPrompt ≠ "" ∨ s.uploadedImage ≠ none) :
    (!strTruthy (jsTrim s.userPrompt) && s.uploadedImage.isNone) = false ∧
    (s.uploadedImage.isSome && cfg.gpt4Missing) = false ∧
    (s.uploadedImage.isNone && s.wantImage && cfg.dalleMissing) = false ∧
    (s.uploadedImage.isNone && !s.wantImage && cfg.gpt4Missing) = false :=
  ⟨promptGuard_eq_false hpre, by simp [hg], by simp [hd], by simp [hg]⟩

/-- C2: with both services configured and every call succeeding, past the
precondition `handleGeneratePost` follows the precedence: (1) with an uploaded
image, one caption call, no image call, and the post is the caption with the
local preview reference; (2) otherwise with `wantImage`, one caption call and
one image call, and the post is the caption with the URL returned by the image
call; (3) otherwise one caption call and the post is the caption with no
`imageUrl`. -/
theorem handleGeneratePost_precedence (cfg : Config) (w : World) (s : DashState)
    (caption : String)
    (hg : cfg.gpt4Missing = false) (hd : cfg.dalleMissing = false)
    (hpre : jsTrim s.userPrompt ≠ "" ∨ s.uploadedImage ≠ none)
    (hcap : ∃ data headers, w.captionPost = .resolved data headers ∧
      captionOfBody w data = .ok caption) :
    (s.uploadedImage ≠ none → w.fileToBase64 ≠ none →
      (requestsOf (handleGeneratePost cfg w s)).countP HttpRequest.isCaption = 1 ∧
      (requestsOf (handleGeneratePost cfg w s)).countP HttpRequest.isImage = 0 ∧
      (runEffects s (handleGeneratePost cfg w s)).generatedPost =
        some { content := some caption
               imageUrl := match s.imagePreviewUrl with
                 | some u => .str u
                 | none => .null }) ∧
    (s.uploadedImage = none → s.wantImage = true →
      ∀ url, (∃ data headers, w.imagePost = .resolved data headers ∧
        imageUrlOfResponse data headers = .ok url) →
      (requestsOf (handleGeneratePost cfg w s)).countP HttpRequest.isCaption = 1 ∧
      (requestsOf (handleGeneratePost cfg w s)).countP HttpRequest.isImage = 1 ∧
      (runEffects s (handleGeneratePost cfg w s)).generatedPost =
        some { content := some caption, imageUrl := url }) ∧
    (s.uploadedImage = none → s.wantImage = false →
      (requestsOf (handleGeneratePost cfg w s)).countP HttpRequest.isCaption = 1 ∧
      (requestsOf (handleGeneratePost cfg w s)).countP HttpRequest.isImage = 0 ∧
      (runEffects s (handleGeneratePost cfg w s)).generatedPost =
        some { content := some caption, imageUrl := .undefined }) := by
  obtain ⟨h₁, h₂, h₃, h₄⟩ := guards_of_configured hg hd hpre
  obtain ⟨data, headers, hpost, hbody⟩ := hcap
  rw [requestsOf_handleGeneratePost_guarded h₁ h₂ h₃ h₄,
    runEffects_handleGeneratePost_guarded h₁ h₂ h₃ h₄]
  refine ⟨?_, ?_, ?_⟩
  · intro hu hread
    cases hu' : s.uploadedImage with
    | none => exact absurd hu' hu
    | some file =>
      cases hr : w.fileToBase64 with
      | none => exact absurd hr hread
      | some dataUrl =>
        simp [generateResult, hu', hr, generateCaptionWithGPT4, hg, hpost, hbody, Except.map,
          HttpRequest.isCaption, HttpRequest.isImage]
  · intro hu hw url himg
    obtain ⟨idata, iheaders, hipost, hibody⟩ := himg
    have hp : strTruthy (jsTrim s.userPrompt) = true := by
      rcases hpre with h | h
      · simp [strTruthy, h]
      · exact absurd hu h
    simp [generateResult, hu, hp, hw, generateCaptionWithGPT4, generateImageWithDalle, hg, hd,
      hpost, hbody, hipost, hibody, promiseAll, Except.map, HttpRequest.isCaption,
      HttpRequest.isImage]
  · intro hu hw
    have hp : strTruthy (jsTrim s.userPrompt) = true := by
      rcases hpre with h | h
      · simp [strTruthy, h]
      · exact absurd hu h
    simp [generateResult, hu, hp, hw, generateCaptionWithGPT4, hg, hpost, hbody, Except.map,
      HttpRequest.isCaption, HttpRequest.isImage]

/-- C2 at the Instagram prompt "sunset hike" with `wantImage`, both calls
answered 200. -/
theorem handleGeneratePost_precedence_witness :
    (requestsOf (handleGeneratePost
      ⟨some "https://img", some "k1", some "https://gpt", some "k2"⟩
      ⟨fun _ => "", fun _ => "", none,
        .resolved (.obj [("choices", .arr [.obj [("message", .obj [("content", .str " Golden hour. ")])]])]) [],
        .resolved (.obj [("data", .arr [.obj [("url", .str "https://cdn/x.png")]])]) [], false⟩
      { DashState.initial with userPrompt := "sunset hike", platform := "Instagram", wantImage := true })).countP
        HttpRequest.isImage = 1 ∧
    (runEffects
      { DashState.initial with userPrompt := "sunset hike", platform := "Instagram", wantImage := true }
      (handleGeneratePost
        ⟨some "https://img", some "k1", some "https://gpt", some "k2"⟩
        ⟨fun _ => "", fun _ => "", none,
          .resolved (.obj [("choices", .arr [.obj [("message", .obj [("content", .str " Golden hour. ")])]])]) [],
          .resolved (.obj [("data", .arr [.obj [("url", .str "https://cdn/x.png")]])]) [], false⟩
        { DashState.initial with userPrompt := "sunset hike", platform := "Instagram", wantImage := true })).generatedPost =
      some { content := some "Golden hour.", imageUrl := .str "https://cdn/x.png" } :=
  have h := (handleGeneratePost_precedence
    ⟨some "https://img", some "k1", some "https://gpt", some "k2"⟩
    ⟨fun _ => "", fun _ => "", none,
      .resolved (.obj [("choices", .arr [.obj [("message", .obj [("content", .str " Golden hour. ")])]])]) [],
      .resolved (.obj [("data", .arr [.obj [("url", .str "https://cdn/x.png")]])]) [], false⟩
    { DashState.initial with userPrompt := "sunset hike", platform := "Instagram", wantImage := true }
    "Golden hour." rfl rfl (Or.inl (by decide)) ⟨_, _, rfl, rfl⟩).2.1 rfl rfl
    (.str "https://cdn/x.png") ⟨_, _, rfl, rfl⟩
  ⟨h.2.1, h.2.2⟩

/-- Where one of the guards of lines 231-233 fires, `handleGeneratePost` issues no
request and sets an error message. -/
theorem handleGeneratePost_config_guard (cfg : Config) (w : World) (s : DashState)
    (hpre : jsTrim s.userPrompt ≠ "" ∨ s.uploadedImage ≠ none)
    (hmiss : (s.uploadedImage.isSome && cfg.gpt4Missing) = true ∨
      (s.uploadedImage.isNone && s.wantImage && cfg.dalleMissing) = true ∨
      (s.uploadedImage.isNone && !s.wantImage && cfg.gpt4Missing) = true) :
    requestsOf (handleGeneratePost cfg w s) = [] ∧
    (runEffects s (handleGeneratePost cfg w s)).error ≠ none := by
  have h₁ := promptGuard_eq_false hpre
  unfold handleGeneratePost
  rw [h₁]
  simp only [Bool.false_eq_true, if_false]
  split
  · exact ⟨rfl, by simp [runEffects, Effect.apply]⟩
  split
  · exact ⟨rfl, by simp [runEffects, Effect.apply]⟩
  split
  · exact ⟨rfl, by simp [runEffects, Effect.apply]⟩
  rename_i h₂ h₃ h₄
  rcases hmiss with h | h | h
  · exact absurd h h₂
  · exact absurd h h₃
  · exact absurd h h₄

/-- C1 fails on the code: with no uploaded image, `wantImage = true`, the DALL-E
pair configured and the GPT-4 pair missing, `handleGeneratePost` passes the
guards of lines 231-233 and issues the image request, whatever the endpoints
answer; only the caption call is refused, inside `generateCaptionWithGPT4`. -/
theorem handleGeneratePost_missing_gpt4_posts_image (w : World) :
    requestsOf (handleGeneratePost ⟨some "https://img", none, none, some "k2"⟩ w
      { DashState.initial with userPrompt := "sunset hike", wantImage := true }) =
      [.image "https://img" "k2"
        "sunset hike, Personal style, visually appealing for LinkedIn, professional setting, clean aesthetic"] ∧
    (runEffects { DashState.initial with userPrompt := "sunset hike", wantImage := true }
      (handleGeneratePost ⟨some "https://img", none, none, some "k2"⟩ w
        { DashState.initial with userPrompt := "sunset hike", wantImage := true })).error =
      some "Error: GPT-4 API endpoint or key is not configured." := by
  have h₁ : (!strTruthy (jsTrim "sunset hike") && (none : Option File).isNone) = false := by decide
  have hr : (generateResult ⟨some "https://img", none, none, some "k2"⟩ w
      { DashState.initial with userPrompt := "sunset hike", wantImage := true }).2 =
      .error (.error "GPT-4 API endpoint or key is not configured.") := by
    have hp : strTruthy (jsTrim "sunset hike") = true := by decide
    simp only [generateResult, DashState.initial, hp, if_true, generateCaptionWithGPT4,
      generateImageWithDalle, promiseAll, Config.gpt4Missing, Config.dalleMissing, envTruthy]
    cases w.imagePost with
    | resolved data headers =>
      simp only []
      generalize imageUrlOfResponse data headers = r
      cases r <;> rfl
    | rejected m r => rfl
  constructor
  · rw [@requestsOf_handleGeneratePost_guarded ⟨some "https://img", none, none, some "k2"⟩ w
      { DashState.initial with userPrompt := "sunset hike", wantImage := true } h₁ rfl rfl rfl]
    rfl
  · rw [@runEffects_handleGeneratePost_guarded ⟨some "https://img", none, none, some "k2"⟩ w
      { DashState.initial with userPrompt := "sunset hike", wantImage := true } h₁ rfl rfl rfl, hr]
    rfl

/-- C10 fails on the code: a text-only request answered 429 with the body
`{"error": {"code": 429, "message": "Too Many Requests"}}` makes the `catch`
itself throw (`includes` is called on the number `429`), so `setError` is never
reached: the handler ends idle with neither a post nor an error. -/
theorem handleGeneratePost_numeric_code_no_error :
    (runEffects { DashState.initial with userPrompt := "launch of our new app" }
      (handleGeneratePost ⟨some "https://img", some "k1", some "https://gpt", some "k2"⟩
        ⟨fun _ => "", fun _ => "", none,
          .rejected "Request failed with status code 429"
            (some (429, .obj [("error",
              .obj [("code", .num 429), ("message", .str "Too Many Requests")])])),
          .rejected "" none, false⟩
        { DashState.initial with userPrompt := "launch of our new app" })).loading = false ∧
    (runEffects { DashState.initial with userPrompt := "launch of our new app" }
      (handleGeneratePost ⟨some "https://img", some "k1", some "https://gpt", some "k2"⟩
        ⟨fun _ => "", fun _ => "", none,
          .rejected "Request failed with status code 429"
            (some (429, .obj [("error",
              .obj [("code", .num 429), ("message", .str "Too Many Requests")])])),
          .rejected "" none, false⟩
        { DashState.initial with userPrompt := "launch of our new app" })).error = none ∧
    ((runEffects { DashState.initial with userPrompt := "launch of our new app" }
      (handleGeneratePost ⟨some "https://img", some "k1", some "https://gpt", some "k2"⟩
        ⟨fun _ => "", fun _ => "", none,
          .rejected "Request failed with status code 429"
            (some (429, .obj [("error",
              .obj [("code", .num 429), ("message", .str "Too Many Requests")])])),
          .rejected "" none, false⟩
        { DashState.initial with userPrompt := "launch of our new app" })).generatedPost).isNone = true := by
  decide

/-- C4 fails on the code: in the caption + image branch, with the caption call
answered 200 and the image call answered 400 with the body
`{"error": {"code": 400, "message": "Bad Request"}}`, no post is stored but no
error message either: the `catch` throws on the numeric `code` before
`setError`. -/
theorem handleGeneratePost_image_failure_no_error :
    (runEffects
      { DashState.initial with userPrompt := "sunset hike", platform := "Instagram", wantImage := true }
      (handleGeneratePost ⟨some "https://img", some "k1", some "https://gpt", some "k2"⟩
        ⟨fun _ => "", fun _ => "", none,
          .resolved (.obj [("choices", .arr [.obj [("message", .obj [("content", .str "Golden hour.")])]])]) [],
          .rejected "Request failed with status code 400"
            (some (400, .obj [("error", .obj [("code", .num 400), ("message", .str "Bad Request")])])),
          false⟩
        { DashState.initial with userPrompt := "sunset hike", platform := "Instagram", wantImage := true })).error =
      none ∧
    ((runEffects
      { DashState.initial with userPrompt := "sunset hike", platform := "Instagram", wantImage := true }
      (handleGeneratePost ⟨some "https://img", some "k1", some "https://gpt", some "k2"⟩
        ⟨fun _ => "", fun _ => "", none,
          .resolved (.obj [("choices", .arr [.obj [("message", .obj [("content", .str "Golden hour.")])]])]) [],
          .rejected "Request failed with status code 400"
            (some (400, .obj [("error", .obj [("code", .num 400), ("message", .str "Bad Request")])])),
          false⟩
        { DashState.initial with userPrompt := "sunset hike", platform := "Instagram", wantImage := true })).generatedPost).isNone =
      true := by
  decide

/-- C11 fails on the code: with a post stored by an earlier attempt, no uploaded
image, `wantImage = true` and the DALL-E pair missing, `handleGeneratePost`
returns at line 232 after `setError` alone: the handler ends with an error
message and the earlier post still stored. -/
theorem handleGeneratePost_guard_keeps_old_post (w : World) :
    (runEffects
      { DashState.initial with
        userPrompt := "sunset hike", wantImage := true,
        generatedPost := some { content := some "Launch day!", imageUrl := .undefined } }
      (handleGeneratePost ⟨none, some "k1", some "https://gpt", none⟩ w
        { DashState.initial with
          userPrompt := "sunset hike", wantImage := true,
          generatedPost := some { content := some "Launch day!", imageUrl := .undefined } })).error =
      some "Error: Azure DALL-E API endpoint or key missing." ∧
    ((runEffects
      { DashState.initial with
        userPrompt := "sunset hike", wantImage := true,
        generatedPost := some { content := some "Launch day!", imageUrl := .undefined } }
      (handleGeneratePost ⟨none, some "k1", some "https://gpt", none⟩ w
        { DashState.initial with
          userPrompt := "sunset hike", wantImage := true,
          generatedPost := some { content := some "Launch day!", imageUrl := .undefined } })).generatedPost.map
        fun p => p.content) = some (some "Launch day!") := by
  have he : handleGeneratePost ⟨none, some "k1", some "https://gpt", none⟩ w
      { DashState.initial with
        userPrompt := "sunset hike", wantImage := true,
        generatedPost := some { content := some "Launch day!", imageUrl := .undefined } } =
      [.setError (some "Error: Azure DALL-E API endpoint or key missing.")] := by
    have h₁ : (!strTruthy (jsTrim "sunset hike") && (none : Option File).isNone) = false := by
      decide
    unfold handleGeneratePost
    simp only [DashState.initial, h₁]
    rfl
  rw [he]
  exact ⟨rfl, rfl⟩

/-- C12 fails on the code: when a second image is picked, the preview URL of the
first one is revoked by `handleImageChange` (line 134) and again by the effect
cleanup that runs because `imagePreviewUrl` changed (line 115): created once,
revoked twice. -/
theorem sessionTrace_revokes_superseded_twice :
    creationsOf "blob:a" (sessionTrace ⟨none, none, none, none⟩
      [.imageChange (some ⟨"a.png", "image/png", 1024⟩) "blob:a",
       .imageChange (some ⟨"b.png", "image/png", 2048⟩) "blob:b"]) = 1 ∧
    revocationsOf "blob:a" (sessionTrace ⟨none, none, none, none⟩
      [.imageChange (some ⟨"a.png", "image/png", 1024⟩) "blob:a",
       .imageChange (some ⟨"b.png", "image/png", 2048⟩) "blob:b"]) = 2 ∧
    revocationsOf "blob:b" (sessionTrace ⟨none, none, none, none⟩
      [.imageChange (some ⟨"a.png", "image/png", 1024⟩) "blob:a",
       .imageChange (some ⟨"b.png", "image/png", 2048⟩) "blob:b"]) = 1 := by
  decide

/-- C16, as amended: a selected file whose MIME type does not start with
`image/` is rejected by `handleImageChange` whatever its size: no uploaded
image, no preview URL, and the invalid-type message as error. -/
theorem handleImageChange_rejects_non_image (s : DashState) (f : File) (previewUrl : String)
    (htype : strStartsWith f.type "image/" = false) :
    (runEffects s (handleImageChange s (some f) previewUrl)).uploadedImage = none ∧
    (runEffects s (handleImageChange s (some f) previewUrl)).imagePreviewUrl = none ∧
    (runEffects s (handleImageChange s (some f) previewUrl)).error =
      some "Please select a valid image file (JPG, PNG, GIF, WEBP)." := by
  rw [handleImageChange_notImage s f previewUrl htype]
  exact ⟨rfl, rfl, rfl⟩

/-- C16 at a PDF of 10 MiB picked in the initial state. -/
theorem handleImageChange_rejects_non_image_witness :
    (runEffects DashState.initial
      (handleImageChange DashState.initial (some ⟨"doc.pdf", "application/pdf", 10485760⟩)
        "blob:1")).uploadedImage = none ∧
    (runEffects DashState.initial
      (handleImageChange DashState.initial (some ⟨"doc.pdf", "application/pdf", 10485760⟩)
        "blob:1")).error = some "Please select a valid image file (JPG, PNG, GIF, WEBP)." :=
  have h := handleImageChange_rejects_non_image DashState.initial
    ⟨"doc.pdf", "application/pdf", 10485760⟩ "blob:1" (by decide)
  ⟨h.1, h.2.2⟩

/-- C16 as stated fails: a BMP file of 1 KiB, whose type is none of `image/png`,
`image/jpeg`, `image/gif`, `image/webp`, is accepted by `handleImageChange`. -/
theorem handleImageChange_accepts_bmp :
    "image/bmp" ∉ ["image/png", "image/jpeg", "image/gif", "image/webp"] ∧
    (runEffects DashState.initial
      (handleImageChange DashState.initial (some ⟨"scan.bmp", "image/bmp", 1024⟩)
        "blob:1")).uploadedImage = some ⟨"scan.bmp", "image/bmp", 1024⟩ ∧
    (runEffects DashState.initial
      (handleImageChange DashState.initial (some ⟨"scan.bmp", "image/bmp", 1024⟩)
        "blob:1")).imagePreviewUrl = some "blob:1" ∧
    (runEffects DashState.initial
      (handleImageChange DashState.initial (some ⟨"scan.bmp", "image/bmp", 1024⟩)
        "blob:1")).error = none := by
  decide

/-- One event of the hook keeps a timer pending while `isCopied` is true. -/
theorem CopyEvent.step_keeps_pending (c : CopyState) (ev : CopyEvent)
    (h : c.isCopied = true → 0 < c.pendingTimers) :
    (CopyEvent.step c ev).isCopied = true → 0 < (CopyEvent.step c ev).pendingTimers := by
  cases ev with
  | copy outcome =>
    cases outcome
    · intro _; simp [CopyEvent.step, copyToClipboard, CopyEffect.apply]
    · exact h
    · intro _; simp [CopyEvent.step, copyToClipboard, CopyEffect.apply]
    · exact h
  | timerFired =>
    rw [show CopyEvent.step c .timerFired =
      (if c.pendingTimers = 0 then c
        else CopyEffect.apply { c with pendingTimers := c.pendingTimers - 1 } (.setIsCopied false))
      from rfl]
    split
    · exact h
    · intro hc; simp [CopyEffect.apply] at hc

/-- A timer stays pending along every run while `isCopied` is true. -/
theorem foldl_step_keeps_pending (evs : List CopyEvent) (c : CopyState)
    (h : c.isCopied = true → 0 < c.pendingTimers) :
    (evs.foldl CopyEvent.step c).isCopied = true → 0 < (evs.foldl CopyEvent.step c).pendingTimers := by
  induction evs generalizing c with
  | nil => exact h
  | cons ev evs ih => exact ih (CopyEvent.step c ev) (CopyEvent.step_keeps_pending c ev h)

/-- The indicator of `useCopyToClipboard` always reverts: after every sequence
of events a revert timer is pending whenever `isCopied` is true, so `isCopied`
is false once all scheduled timers have fired; a rejected `writeText` and a
throwing fallback set nothing, while a fallback that runs through sets
`isCopied` whatever `document.execCommand` returned. -/
theorem useCopyToClipboard_reverts (evs : List CopyEvent) :
    ((copyReach evs).isCopied = true → 0 < (copyReach evs).pendingTimers) ∧
    ((copyReach evs).pendingTimers = 0 → (copyReach evs).isCopied = false) ∧
    copyToClipboard .writeResolved = [.setIsCopied true, .setTimeout 1500] ∧
    (∀ copied, copyToClipboard (.fallbackReturned copied) =
      [.setIsCopied true, .setTimeout 1500]) ∧
    copyToClipboard .writeRejected = [] ∧ copyToClipboard .fallbackThrew = [] ∧
    (∀ c : CopyState, CopyEvent.step c (.copy .writeRejected) = c ∧
      CopyEvent.step c (.copy .fallbackThrew) = c) ∧
    (∀ c : CopyState, 0 < c.pendingTimers → (CopyEvent.step c .timerFired).isCopied = false) := by
  have hinv := foldl_step_keeps_pending evs useCopyToClipboard (by intro h; cases h)
  refine ⟨hinv, ?_, rfl, fun _ => rfl, rfl, rfl, fun c => ⟨rfl, rfl⟩, ?_⟩
  · intro h0
    cases hc : (copyReach evs).isCopied with
    | false => rfl
    | true =>
      have := hinv hc
      unfold copyReach at h0
      omega
  · intro c hc
    have : c.pendingTimers ≠ 0 := by omega
    simp [CopyEvent.step, this, CopyEffect.apply]

/-- Two copies in quick succession followed by both timers leave `isCopied`
false. -/
theorem useCopyToClipboard_reverts_twice :
    (copyReach [.copy .writeResolved, .copy .writeResolved, .timerFired, .timerFired]).isCopied =
      false :=
  (useCopyToClipboard_reverts
    [.copy .writeResolved, .copy .writeResolved, .timerFired, .timerFired]).2.1 (by decide)

/-- C17 fails on the code: without `navigator.clipboard`, when
`document.execCommand("copy")` returns `false` without throwing (nothing was
copied), the fallback still runs `setIsCopied(true)` and schedules the revert
(lines 77-80): a copy whose clipboard write failed sets `isCopied`. -/
theorem copyToClipboard_failed_fallback_sets_isCopied :
    (CopyOutcome.fallbackReturned false).failed = true ∧
    copyToClipboard (.fallbackReturned false) = [.setIsCopied true, .setTimeout 1500] ∧
    (copyReach [.copy (.fallbackReturned false)]).isCopied = true :=
  ⟨rfl, rfl, rfl⟩

/-- A list that contains `pat` after some leading part has it as a substring. -/
theorem hasSubstr_append (a pat b : List Char) : hasSubstr (a ++ (pat ++ b)) pat = true := by
  induction a with
  | nil =>
    cases h : pat ++ b with
    | nil =>
      have : pat = [] := (List.append_eq_nil.mp h).1
      simp [hasSubstr, this]
    | cons c cs =>
      simp only [List.nil_append, h, hasSubstr, Bool.or_eq_true]
      left
      rw [← h, List.isPrefixOf_iff_prefix]
      exact List.prefix_append pat b
  | cons x xs ih =>
    simp only [List.cons_append, hasSubstr, Bool.or_eq_true]
    right
    exact ih

/-- Appending to the same string is injective. -/
theorem str_append_left_cancel {a b c : String} (h : a ++ b = a ++ c) : b = c := by
  have := congrArg String.data h
  simp only [String.data_append] at this
  exact String.ext (List.append_cancel_left this)

/-- The image prompt by platform. -/
theorem imageGenPrompt_cases (p st P : String) :
    (P = "Instagram" → imageGenPrompt p st P =
      p ++ ", " ++ st ++ " style, visually appealing for " ++ P ++ ", vibrant colors, high detail") ∧
    (P = "LinkedIn" → imageGenPrompt p st P =
      p ++ ", " ++ st ++ " style, visually appealing for " ++ P ++
        ", professional setting, clean aesthetic") ∧
    (P ≠ "Instagram" → P ≠ "LinkedIn" → imageGenPrompt p st P =
      p ++ ", " ++ st ++ " style, visually appealing for " ++ P) := by
  refine ⟨?_, ?_, ?_⟩
  · intro h; subst h; simp [imageGenPrompt]
  · intro h; subst h; simp [imageGenPrompt]
  · intro h₁ h₂; simp [imageGenPrompt, h₁, h₂]

/-- C15: the prompt sent to the image service in the caption + image branch is
the user prompt followed by ", " + style + " style, visually appealing for " +
platform, followed by ", vibrant colors, high detail" exactly for Instagram and
by ", professional setting, clean aesthetic" exactly for LinkedIn, with no
qualifier for Twitter and Facebook; it starts with the user prompt and for
Instagram contains "vibrant colors, high detail". -/
theorem imageGenPrompt_qualifiers (p st P : String) :
    (imageGenPrompt p st P =
        p ++ ", " ++ st ++ " style, visually appealing for " ++ P ++ ", vibrant colors, high detail" ↔
      P = "Instagram") ∧
    (imageGenPrompt p st P =
        p ++ ", " ++ st ++ " style, visually appealing for " ++ P ++
          ", professional setting, clean aesthetic" ↔
      P = "LinkedIn") ∧
    (P = "Twitter" ∨ P = "Facebook" →
      imageGenPrompt p st P = p ++ ", " ++ st ++ " style, visually appealing for " ++ P) ∧
    strStartsWith (imageGenPrompt p st P) p = true ∧
    strIncludes (imageGenPrompt p st "Instagram") "vibrant colors, high detail" = true ∧
    (∀ (cfg : Config) (w : World) (s : DashState),
      s.uploadedImage = none → s.wantImage = true → jsTrim s.userPrompt ≠ "" →
      cfg.dalleMissing = false →
      (requestsOf (handleGeneratePost cfg w s)).filter HttpRequest.isImage =
        [.image (cfg.DALLE_ENDPOINT.getD "") (cfg.AZURE_DALLE_API_KEY.getD "")
          (imageGenPrompt s.userPrompt s.postType s.platform)]) := by
  obtain ⟨hI, hL, hO⟩ := imageGenPrompt_cases p st P
  refine ⟨⟨?_, hI⟩, ⟨?_, hL⟩, ?_, ?_, ?_, ?_⟩
  · intro h
    by_contra hne
    by_cases hl : P = "LinkedIn"
    · rw [hL hl] at h
      exact absurd (str_append_left_cancel h) (by decide)
    · rw [hO hne hl] at h
      have h' : (p ++ ", " ++ st ++ " style, visually appealing for " ++ P) ++ "" =
          (p ++ ", " ++ st ++ " style, visually appealing for " ++ P) ++
            ", vibrant colors, high detail" := by
        rw [String.append_empty]; exact h
      exact absurd (str_append_left_cancel h') (by decide)
  · intro h
    by_contra hne
    by_cases hi : P = "Instagram"
    · rw [hI hi] at h
      exact absurd (str_append_left_cancel h) (by decide)
    · rw [hO hi hne] at h
      have h' : (p ++ ", " ++ st ++ " style, visually appealing for " ++ P) ++ "" =
          (p ++ ", " ++ st ++ " style, visually appealing for " ++ P) ++
            ", professional setting, clean aesthetic" := by
        rw [String.append_empty]; exact h
      exact absurd (str_append_left_cancel h') (by decide)
  · rintro (h | h) <;> subst h <;> exact hO (by decide) (by decide)
  · unfold strStartsWith
    rw [List.isPrefixOf_iff_prefix]
    by_cases hi : P = "Instagram"
    · rw [hI hi]; simp only [String.data_append, List.append_assoc]; exact List.prefix_append _ _
    · by_cases hl : P = "LinkedIn"
      · rw [hL hl]; simp only [String.data_append, List.append_assoc]; exact List.prefix_append _ _
      · rw [hO hi hl]; simp only [String.data_append, List.append_assoc]; exact List.prefix_append _ _
  · rw [(imageGenPrompt_cases p st "Instagram").1 rfl]
    unfold strIncludes
    have hs : (p ++ ", " ++ st ++ " style, visually appealing for " ++ "Instagram" ++
        ", vibrant colors, high detail").data =
        (p ++ ", " ++ st ++ " style, visually appealing for " ++ "Instagram" ++ ", ").data ++
          ("vibrant colors, high detail".data ++ []) := by
      simp [String.data_append]
    rw [hs]
    exact hasSubstr_append _ _ _
  · intro cfg w s hu hw hp hd
    have h₁ := @promptGuard_eq_false s (Or.inl hp)
    have hp' : strTruthy (jsTrim s.userPrompt) = true := by simp [strTruthy, hp]
    rw [@requestsOf_handleGeneratePost_guarded cfg w s h₁ (by simp [hu]) (by simp [hd])
      (by simp [hw])]
    simp only [generateResult, hu, hp', hw, if_true, generateImageWithDalle, hd,
      generateCaptionWithGPT4]
    cases hg : cfg.gpt4Missing <;> simp [HttpRequest.isImage]

/-- C15 at the Instagram prompt "sunset hike". -/
theorem imageGenPrompt_qualifiers_witness :
    (requestsOf (handleGeneratePost ⟨some "https://img", some "k1", some "https://gpt", some "k2"⟩
      ⟨fun _ => "", fun _ => "", none, .rejected "" none, .rejected "" none, false⟩
      { DashState.initial with userPrompt := "sunset hike", platform := "Instagram", wantImage := true })).filter
        HttpRequest.isImage =
      [.image "https://img" "k2"
        "sunset hike, Personal style, visually appealing for Instagram, vibrant colors, high detail"] :=
  (imageGenPrompt_qualifiers "sunset hike" "Personal" "Instagram").2.2.2.2.2
    ⟨some "https://img", some "k1", some "https://gpt", some "k2"⟩
    ⟨fun _ => "", fun _ => "", none, .rejected "" none, .rejected "" none, false⟩
    { DashState.initial with userPrompt := "sunset hike", platform := "Instagram", wantImage := true }
    rfl rfl (by decide) rfl

/-- The first element left by `dropWhile` fails the test. -/
theorem head?_dropWhile_false (p : Char → Bool) (l : List Char) (c : Char)
    (h : (l.dropWhile p).head? = some c) : p c = false := by
  induction l with
  | nil => simp at h
  | cons x xs ih =>
    by_cases hx : p x = true
    · rw [List.dropWhile_cons_of_pos hx] at h
      exact ih h
    · rw [List.dropWhile_cons_of_neg hx] at h
      simp at h
      subst h
      simpa using hx

/-- The last element left by `dropWhile` is the last element of the list. -/
theorem getLast?_dropWhile (p : Char → Bool) (l : List Char) (c : Char)
    (h : (l.dropWhile p).getLast? = some c) : l.getLast? = some c := by
  induction l with
  | nil => simp at h
  | cons x xs ih =>
    by_cases hx : p x = true
    · rw [List.dropWhile_cons_of_pos hx] at h
      have hxs := ih h
      cases xs with
      | nil => simp at hxs
      | cons y ys => simpa [List.getLast?_cons_cons] using hxs
    · rw [List.dropWhile_cons_of_neg hx] at h
      exact h

/-- The result of `trim()` neither starts nor ends with whitespace. -/
theorem jsTrim_trimmed (s : String) :
    (∀ c, (jsTrim s).data.head? = some c → isJsWhitespace c = false) ∧
    (∀ c, (jsTrim s).data.getLast? = some c → isJsWhitespace c = false) := by
  unfold jsTrim
  constructor
  · intro c h
    simp only [List.head?_reverse] at h
    have h' := getLast?_dropWhile _ _ _ h
    rw [List.getLast?_reverse] at h'
    exact head?_dropWhile_false _ _ _ h'
  · intro c h
    simp only [List.getLast?_reverse] at h
    exact head?_dropWhile_false _ _ _ h

/-- A caption read from a body is a non-empty result of `trim()`. -/
theorem captionOfBody_ok {w : World} {data : JsVal} {c : String}
    (h : captionOfBody w data = .ok c) : ∃ raw, c = jsTrim raw ∧ c ≠ "" := by
  unfold captionOfBody at h
  split at h
  · cases h
  · simp only [] at h
    split at h
    · cases h
    · cases h
    · rename_i raw _
      split at h
      · rename_i ht
        injection h with h
        subst h
        exact ⟨raw, rfl, by simpa [strTruthy] using ht⟩
      · cases h
    · cases h

/-- A caption returned by `generateCaptionWithGPT4` is a non-empty result of
`trim()`. -/
theorem generateCaptionWithGPT4_ok {cfg : Config} {w : World} {messages : List ChatMessage}
    {platform c : String} (h : (generateCaptionWithGPT4 cfg w messages platform).2 = .ok c) :
    ∃ raw, c = jsTrim raw ∧ c ≠ "" := by
  unfold generateCaptionWithGPT4 at h
  split at h
  · cases h
  · simp only [] at h
    split at h
    · exact captionOfBody_ok h
    · cases h

/-- A mapped result is `ok` only over an `ok`. -/
theorem except_map_ok {α β : Type} {f : α → β} {x : Except JsError α} {y : β}
    (h : Except.map f x = .ok y) : ∃ a, x = .ok a ∧ f a = y := by
  cases x with
  | error e => simp [Except.map] at h
  | ok a =>
    simp only [Except.map] at h
    injection h with h
    exact ⟨a, rfl, h⟩

/-- The joint promise resolves only when both calls resolve, with both
results. -/
theorem promiseAll_ok {w : World} {caption : List HttpRequest × Except JsError String}
    {image : List HttpRequest × Except JsError JsVal} {r : String × JsVal}
    (h : promiseAll w caption image = .ok r) : caption.2 = .ok r.1 ∧ image.2 = .ok r.2 := by
  unfold promiseAll at h
  cases hc : caption.2 with
  | error e =>
    cases hi : image.2 with
    | error e' =>
      simp only [hc, hi] at h
      split at h
      · cases h
      · split at h
        · cases h
        · split at h <;> cases h
    | ok u => simp [hc, hi] at h
  | ok c =>
    cases hi : image.2 with
    | error e' => simp [hc, hi] at h
    | ok u =>
      simp only [hc, hi] at h
      injection h with h
      subst h
      exact ⟨rfl, rfl⟩

/-- Past the first guard, a `result` of the `try` block carries a caption
returned by `generateCaptionWithGPT4`. -/
theorem generateResult_ok_content {cfg : Config} {w : World} {s : DashState} {r : Post}
    (h₁ : (!strTruthy (jsTrim s.userPrompt) && s.uploadedImage.isNone) = false)
    (h : (generateResult cfg w s).2 = .ok r) :
    ∃ raw, r.content = some (jsTrim raw) ∧ jsTrim raw ≠ "" := by
  unfold generateResult at h
  cases hu : s.uploadedImage with
  | some file =>
    simp only [hu] at h
    cases hf : w.fileToBase64 with
    | none => simp [hf] at h
    | some dataUrl =>
      simp only [hf] at h
      obtain ⟨c, hc, hr⟩ := except_map_ok h
      obtain ⟨raw, hraw, hne⟩ := generateCaptionWithGPT4_ok hc
      subst hr
      exact ⟨raw, by rw [hraw], hraw ▸ hne⟩
  | none =>
    simp only [hu] at h
    have hp : strTruthy (jsTrim s.userPrompt) = true := by
      simpa [hu] using h₁
    simp only [hp, if_true] at h
    cases hw : s.wantImage with
    | true =>
      simp only [hw, if_true] at h
      obtain ⟨p, hp', hr⟩ := except_map_ok h
      obtain ⟨hc, _⟩ := promiseAll_ok hp'
      obtain ⟨raw, hraw, hne⟩ := generateCaptionWithGPT4_ok hc
      subst hr
      exact ⟨raw, by rw [hraw], hraw ▸ hne⟩
    | false =>
      simp only [hw] at h
      obtain ⟨c, hc, hr⟩ := except_map_ok h
      obtain ⟨raw, hraw, hne⟩ := generateCaptionWithGPT4_ok hc
      subst hr
      exact ⟨raw, by rw [hraw], hraw ▸ hne⟩

/-- C18: whenever `handleGeneratePost` stores a post, the handler ends with that
post in `generatedPost`, and its `content` is a non-empty string that neither
starts nor ends with whitespace: the empty object `{}` is never stored, and the
content is what `generateCaptionWithGPT4` returned after `trim()`. -/
theorem handleGeneratePost_content_trimmed (cfg : Config) (w : World) (s : DashState)
    (p : Post) (hstored : Effect.setGeneratedPost (some p) ∈ handleGeneratePost cfg w s) :
    (∃ c, p.content = some c ∧ c ≠ "" ∧
      (∀ ch, c.data.head? = some ch → isJsWhitespace ch = false) ∧
      (∀ ch, c.data.getLast? = some ch → isJsWhitespace ch = false)) ∧
    (runEffects s (handleGeneratePost cfg w s)).generatedPost = some p ∧
    (runEffects s (handleGeneratePost cfg w s)).error = none ∧
    (runEffects s (handleGeneratePost cfg w s)).loading = false := by
  by_cases h₁ : (!strTruthy (jsTrim s.userPrompt) && s.uploadedImage.isNone) = false
  swap
  · exfalso
    unfold handleGeneratePost at hstored
    rw [if_pos (Bool.of_not_eq_false h₁)] at hstored
    simp at hstored
  by_cases h₂ : (s.uploadedImage.isSome && cfg.gpt4Missing) = false
  swap
  · exfalso
    unfold handleGeneratePost at hstored
    rw [h₁, if_neg (by simp), if_pos (Bool.of_not_eq_false h₂)] at hstored
    simp at hstored
  by_cases h₃ : (s.uploadedImage.isNone && s.wantImage && cfg.dalleMissing) = false
  swap
  · exfalso
    unfold handleGeneratePost at hstored
    rw [h₁, h₂, if_neg (by simp), if_neg (by simp), if_pos (Bool.of_not_eq_false h₃)] at hstored
    simp at hstored
  by_cases h₄ : (s.uploadedImage.isNone && !s.wantImage && cfg.gpt4Missing) = false
  swap
  · exfalso
    unfold handleGeneratePost at hstored
    rw [h₁, h₂, h₃, if_neg (by simp), if_neg (by simp), if_neg (by simp),
      if_pos (Bool.of_not_eq_false h₄)] at hstored
    simp at hstored
  rw [runEffects_handleGeneratePost_guarded h₁ h₂ h₃ h₄]
  rw [handleGeneratePost_guarded h₁ h₂ h₃ h₄] at hstored
  simp only [List.mem_append, List.mem_cons, List.mem_map, List.mem_singleton,
    List.not_mem_nil, or_false] at hstored
  cases hr : (generateResult cfg w s).2 with
  | error e =>
    exfalso
    rw [hr] at hstored
    rcases hstored with (((h | h | h) | ⟨r, _, h⟩) | h) | h
    · cases h
    · cases h
    · cases h
    · cases h
    · simp only [] at h
      split at h
      · simp at h
      · simp at h
    · cases h
  | ok r =>
    rw [hr] at hstored
    have hp : p = r := by
      rcases hstored with (((h | h | h) | ⟨r', _, h⟩) | h) | h
      · cases h
      · cases h
      · cases h
      · cases h
      · simp at h; exact h
      · cases h
    subst hp
    obtain ⟨raw, hc, hne⟩ := generateResult_ok_content h₁ hr
    refine ⟨⟨jsTrim raw, hc, hne, (jsTrim_trimmed raw).1, (jsTrim_trimmed raw).2⟩, rfl, rfl, rfl⟩

/-- C18 at the LinkedIn prompt "launch of our new app", the caption call
answered 200 with the content " Big news! ". -/
theorem handleGeneratePost_content_trimmed_witness :
    (∃ c, (some "Big news!" : Option String) = some c ∧ c ≠ "" ∧
      (∀ ch, c.data.head? = some ch → isJsWhitespace ch = false) ∧
      (∀ ch, c.data.getLast? = some ch → isJsWhitespace ch = false)) ∧
    (runEffects { DashState.initial with userPrompt := "launch of our new app" }
      (handleGeneratePost ⟨some "https://img", some "k1", some "https://gpt", some "k2"⟩
        ⟨fun _ => "", fun _ => "", none,
          .resolved (.obj [("choices", .arr [.obj [("message", .obj [("content", .str " Big news! ")])]])]) [],
          .rejected "" none, false⟩
        { DashState.initial with userPrompt := "launch of our new app" })).generatedPost =
      some { content := some "Big news!", imageUrl := .undefined } :=
  have h := handleGeneratePost_content_trimmed
    ⟨some "https://img", some "k1", some "https://gpt", some "k2"⟩
    ⟨fun _ => "", fun _ => "", none,
      .resolved (.obj [("choices", .arr [.obj [("message", .obj [("content", .str " Big news! ")])]])]) [],
      .rejected "" none, false⟩
    { DashState.initial with userPrompt := "launch of our new app" }
    { content := some "Big news!", imageUrl := .undefined }
    (List.mem_cons_of_mem _ (List.mem_cons_of_mem _ (List.mem_cons_of_mem _
      (List.mem_cons_of_mem _ (List.mem_cons_self _ _)))))
  ⟨h.1, h.2.1⟩

/-- On a body that is not nullish, `generateCaptionWithGPT4` reads the caption
as follows: a string content with a non-empty `trim()` is returned trimmed;
an absent, `null`, empty or whitespace-only content is the invalid-response
error; any other content makes `trim` throw. -/
theorem captionOfBody_cases (w : World) (data : JsVal) (hbody : data.isNullish = false) :
    (∀ raw, contentOf data = .str raw → jsTrim raw ≠ "" →
      captionOfBody w data = .ok (jsTrim raw)) ∧
    (contentOf data = .undefined ∨ contentOf data = .null ∨
        (∃ raw, contentOf data = .str raw ∧ jsTrim raw = "") →
      ∃ detail, captionOfBody w data = .error (.error (invalidCaptionResponse ++ detail))) ∧
    (∀ c, captionOfBody w data = .ok c →
      ∃ raw, contentOf data = .str raw ∧ jsTrim raw ≠ "" ∧ c = jsTrim raw) := by
  unfold captionOfBody contentOf
  simp only [hbody, Bool.false_eq_true, if_false]
  generalize (((data.getProp "choices").optIndex0).optProp "message").optProp "content" = content
  refine ⟨?_, ?_, ?_⟩
  · intro raw hc hne
    subst hc
    simp [strTruthy, hne]
  · rintro (hc | hc | ⟨raw, hc, he⟩)
    · subst hc; exact ⟨_, rfl⟩
    · subst hc; exact ⟨_, rfl⟩
    · subst hc
      simp only [strTruthy, he]
      exact ⟨_, rfl⟩
  · intro c h
    cases content with
    | str raw =>
      simp only [] at h
      split at h
      · rename_i ht
        injection h with h
        exact ⟨raw, rfl, by simpa [strTruthy] using ht, h.symm⟩
      · cases h
    | undefined => cases h
    | null => cases h
    | bool b => cases h
    | num n => cases h
    | arr xs => cases h
    | obj fs => cases h

/-- C13 fails on the code: a 200 whose body is `null` makes line 174 throw on
`response.data.choices`, and a 200 whose content is an array of parts makes it
throw on `trim`: `generateCaptionWithGPT4` fails with a `TypeError`, not with
the invalid-response error of line 180. -/
theorem generateCaptionWithGPT4_typeError :
    (generateCaptionWithGPT4 ⟨some "https://img", some "k1", some "https://gpt", some "k2"⟩
      ⟨fun _ => "", fun _ => "", none, .resolved .null [], .rejected "" none, false⟩
      [] "LinkedIn").2 =
      .error (.error "Cannot read properties of null (reading 'choices')") ∧
    (generateCaptionWithGPT4 ⟨some "https://img", some "k1", some "https://gpt", some "k2"⟩
      ⟨fun _ => "", fun _ => "", none,
        .resolved (.obj [("choices", .arr [.obj [("message", .obj [("content",
          .arr [.obj [("type", .str "text"), ("text", .str "Big news!")]])])]])]) [],
        .rejected "" none, false⟩
      [] "LinkedIn").2 =
      .error (.error "response.data.choices?.[0]?.message?.content?.trim is not a function") ∧
    strStartsWith "Cannot read properties of null (reading 'choices')" invalidCaptionResponse = false ∧
    strStartsWith "response.data.choices?.[0]?.message?.content?.trim is not a function"
      invalidCaptionResponse = false :=
  ⟨rfl, rfl, by decide, by decide⟩

/-- The classification of a 2xx body that is not nullish (lines 208-217). -/
theorem imageUrlOfResponse_cases (data : JsVal) (headers : List (String × String))
    (hbody : data.isNullish = false) :
    imageUrlOfResponse data headers =
      if (directUrl data).truthy then .ok (directUrl data)
      else if (wrappedUrl data).truthy then .ok (wrappedUrl data)
      else if isAsyncJob data headers then .error (.error asyncNotImplemented)
      else .error (.error invalidImageResponse) := by
  unfold imageUrlOfResponse directUrl wrappedUrl isAsyncJob asyncNotImplemented
    invalidImageResponse JsVal.or
  simp only [hbody, Bool.false_eq_true, if_false]
  by_cases h₁ : ((data.getProp "data").optIndex0.optProp "url").truthy = true
  · simp [h₁]
  · simp only [h₁, if_false]
    by_cases h₂ : ((((data.getProp "result").optProp "data").optIndex0).optProp "url").truthy = true
    · simp [h₂]
    · simp [h₂]

/-- C14, as amended: for a 2xx response of the image endpoint whose body is not
`null` or `undefined`, `generateImageWithDalle` returns `data[0].url` when that
is truthy (a non-empty string in particular), otherwise `result.data[0].url`
when that is truthy; it fails with the polling-not-implemented error exactly
when neither is truthy and the body has a truthy `id` and the response a
non-empty `operation-location` header; in all remaining cases it fails with the
invalid-response error.  It issues one request and no second one. -/
theorem generateImageWithDalle_classifies (cfg : Config) (w : World) (imagePrompt : String)
    (data : JsVal) (headers : List (String × String))
    (hcfg : cfg.dalleMissing = false) (hpost : w.imagePost = .resolved data headers)
    (hbody : data.isNullish = false) :
    ((directUrl data).truthy = true →
      (generateImageWithDalle cfg w imagePrompt).2 = .ok (directUrl data)) ∧
    (∀ u, directUrl data = .str u → u ≠ "" →
      (generateImageWithDalle cfg w imagePrompt).2 = .ok (.str u)) ∧
    ((directUrl data).truthy = false → (wrappedUrl data).truthy = true →
      (generateImageWithDalle cfg w imagePrompt).2 = .ok (wrappedUrl data)) ∧
    ((generateImageWithDalle cfg w imagePrompt).2 = .error (.error asyncNotImplemented) ↔
      (directUrl data).truthy = false ∧ (wrappedUrl data).truthy = false ∧
      (data.getProp "id").truthy = true ∧
      envTruthy (headers.lookup "operation-location") = true) ∧
    ((directUrl data).truthy = false → (wrappedUrl data).truthy = false →
      ¬((data.getProp "id").truthy = true ∧
        envTruthy (headers.lookup "operation-location") = true) →
      (generateImageWithDalle cfg w imagePrompt).2 = .error (.error invalidImageResponse)) ∧
    asyncNotImplemented ≠ invalidImageResponse ∧
    (generateImageWithDalle cfg w imagePrompt).1 =
      [.image (cfg.DALLE_ENDPOINT.getD "") (cfg.AZURE_DALLE_API_KEY.getD "") imagePrompt] := by
  have hr : (generateImageWithDalle cfg w imagePrompt).2 = imageUrlOfResponse data headers := by
    simp [generateImageWithDalle, hcfg, hpost]
  rw [hr, imageUrlOfResponse_cases data headers hbody]
  refine ⟨?_, ?_, ?_, ?_, ?_, by decide, ?_⟩
  · intro h; simp [h]
  · intro u hu hne
    have ht : (directUrl data).truthy = true := by rw [hu]; simp [JsVal.truthy, hne]
    rw [if_pos ht, hu]
  · intro h₁ h₂; simp [h₁, h₂]
  · constructor
    · intro h
      by_cases h₁ : (directUrl data).truthy = true
      · simp [h₁] at h
      · by_cases h₂ : (wrappedUrl data).truthy = true
        · simp [h₁, h₂] at h
        · by_cases h₃ : isAsyncJob data headers = true
          · refine ⟨by simpa using h₁, by simpa using h₂, ?_⟩
            simpa [isAsyncJob] using h₃
          · simp only [h₁, h₂, h₃, if_false] at h
            injection h with h
            injection h with h
            exact absurd h.symm (by decide)
    · rintro ⟨h₁, h₂, h₃, h₄⟩
      simp [h₁, h₂, isAsyncJob, h₃, h₄]
  · intro h₁ h₂ h₃
    have : isAsyncJob data headers = false := by
      simp only [isAsyncJob]
      by_cases hid : (data.getProp "id").truthy = true
      · have hh : envTruthy (headers.lookup "operation-location") = false := by
          by_contra hc
          exact h₃ ⟨hid, by simpa using hc⟩
        simp [hh]
      · simp [hid]
    simp [h₁, h₂, this]
  · simp [generateImageWithDalle, hcfg]

/-- C14 at a 200 with the URL at `data[0].url`. -/
theorem generateImageWithDalle_classifies_witness :
    (generateImageWithDalle ⟨some "https://img", some "k1", some "https://gpt", some "k2"⟩
      ⟨fun _ => "", fun _ => "", none, .rejected "" none,
        .resolved (.obj [("data", .arr [.obj [("url", .str "https://cdn/x.png")]])]) [], false⟩
      "sunset hike").2 = .ok (.str "https://cdn/x.png") :=
  (generateImageWithDalle_classifies
    ⟨some "https://img", some "k1", some "https://gpt", some "k2"⟩
    ⟨fun _ => "", fun _ => "", none, .rejected "" none,
      .resolved (.obj [("data", .arr [.obj [("url", .str "https://cdn/x.png")]])]) [], false⟩
    "sunset hike" (.obj [("data", .arr [.obj [("url", .str "https://cdn/x.png")]])]) []
    rfl rfl rfl).1 rfl

/-- C14 as stated fails: when `data[0].url` is an object and `result.data[0].url`
is a non-empty string, `generateImageWithDalle` returns the object, which is
truthy, and not the string. -/
theorem generateImageWithDalle_returns_truthy_non_string :
    (generateImageWithDalle ⟨some "https://img", some "k1", some "https://gpt", some "k2"⟩
      ⟨fun _ => "", fun _ => "", none, .rejected "" none,
        .resolved (.obj [("data", .arr [.obj [("url", .obj [("href", .str "https://cdn/a.png")])]]),
          ("result", .obj [("data", .arr [.obj [("url", .str "https://cdn/b.png")]])])]) [], false⟩
      "sunset hike").2 = .ok (.obj [("href", .str "https://cdn/a.png")]) ∧
    JsVal.obj [("href", .str "https://cdn/a.png")] ≠ JsVal.str "https://cdn/b.png" :=
  ⟨rfl, fun h => nomatch h⟩

end Dashboard
